import Mathlib

/-!
Verification of the go-base32 codec (vstakhov/go-base32, src/base32.go).

The Go code is shallowly embedded: byte buffers become `List Nat` (each
element a byte value), the 256-entry decode array becomes a total function
`Nat → Nat` (0xff marking invalid entries), and the `int32` "remain"
accumulator of the encoder becomes an `Int` so that the -1 sentinel of the
source is kept.  Encoding writes sequentially into its output buffer, so the
written region is modelled as the returned list; likewise decoding returns
the list of bytes it wrote together with an optional `DecodeError`.
-/

namespace Base32

/-- Encode order of an alphabet (src/base32.go `EncodeOrder`). -/
inductive EncodeOrder where
  | OrderNormal
  | OrderInversed
deriving DecidableEq

/-- An alphabet: 32 encode symbols, the 256-entry decode table (as a function
on byte values), and the encode order (src/base32.go `Alphabet`). -/
structure Alphabet where
  encodeSymbols : List Nat
  decodeBytes : Nat → Nat
  encodeOrder : EncodeOrder

/-- Decoding error (src/base32.go `DecodeError`). -/
structure DecodeError where
  Msg : String
  Offset : Nat
  Byte : Nat
deriving DecidableEq

/-- Point update of a decode table, modelling a Go array assignment
`decodeBytes[b] = i`. -/
def setTab (t : Nat → Nat) (k v : Nat) : Nat → Nat :=
  fun x => if x = k then v else t x

/-- The validation loop of `NewAlphabet` (src/base32.go lines 43-57): for each
byte check printability, check for duplicates against the set of bytes seen so
far, and record the decode entry. -/
def newAlphabetLoop (dec : Nat → Nat) (seen : List Nat) (i : Nat) :
    List Nat → Except String (Nat → Nat)
  | [] => .ok dec
  | b :: rest =>
    if b < 32 ∨ 126 < b then .error ("unprintable byte")
    else if b ∈ seen then .error ("duplicated byte")
    else newAlphabetLoop (setTab dec b i) (b :: seen) (i + 1) rest

/-- Constructor for alphabets (src/base32.go `NewAlphabet`).  On success the
symbol array is exactly the input specification. -/
def NewAlphabet (alphabet : List Nat) (order : EncodeOrder) : Except String Alphabet :=
  if alphabet.length ≠ 32 then .error ("invalid length - must be 32 bytes")
  else
    (newAlphabetLoop (fun _ => 0xff) [] 0 alphabet).map
      (fun dec => { encodeSymbols := alphabet, decodeBytes := dec, encodeOrder := order })

/-- Loop of `initDecodeTable` (src/base32.go lines 74-76): set
`decodeBytes[b] = i` for each byte of the alphabet string. -/
def initDecodeLoop (t : Nat → Nat) (i : Nat) : List Nat → (Nat → Nat)
  | [] => t
  | b :: rest => initDecodeLoop (setTab t b i) (i + 1) rest

/-- Decode-table initialisation for the predefined alphabets
(src/base32.go `initDecodeTable`): all entries start at 0xff. -/
def initDecodeTable (alphabet : List Nat) : Nat → Nat :=
  initDecodeLoop (fun _ => 0xff) 0 alphabet

/-- Symbol array of the ZBASE32 alphabet (src/base32.go line 85). -/
def zbase32Symbols : List Nat :=
  ['y', 'b', 'n', 'd', 'r', 'f', 'g', '8', 'e', 'j', 'k', 'm', 'c', 'p', 'q', 'x',
   'o', 't', '1', 'u', 'w', 'i', 's', 'z', 'a', '3', '4', '5', 'h', '7', '6', '9'].map Char.toNat

/-- Alphabet string passed to `initDecodeTable` for ZBASE32 (src/base32.go line 86). -/
def zbase32Alphabet : List Nat :=
  "ybndrfg8ejkmcpqxot1uwisza345h769".toList.map Char.toNat

/-- The predefined ZBASE32 alphabet, inversed order (src/base32.go lines 84-88). -/
def ZBASE32 : Alphabet :=
  { encodeSymbols := zbase32Symbols
    decodeBytes := initDecodeTable zbase32Alphabet
    encodeOrder := .OrderInversed }

/-- Symbol array of the RFC4648 alphabet (src/base32.go line 92). -/
def rfc4648Symbols : List Nat :=
  ['A', 'B', 'C', 'D', 'E', 'F', 'G', 'H', 'I', 'J', 'K', 'L', 'M', 'N', 'O', 'P',
   'Q', 'R', 'S', 'T', 'U', 'V', 'W', 'X', 'Y', 'Z', '2', '3', '4', '5', '6', '7'].map Char.toNat

/-- Alphabet string passed to `initDecodeTable` for RFC4648 (src/base32.go line 93). -/
def rfc4648Alphabet : List Nat :=
  "ABCDEFGHIJKLMNOPQRSTUVWXYZ234567".toList.map Char.toNat

/-- The predefined RFC4648 alphabet, normal order (src/base32.go lines 91-95). -/
def RFC4648 : Alphabet :=
  { encodeSymbols := rfc4648Symbols
    decodeBytes := initDecodeTable rfc4648Alphabet
    encodeOrder := .OrderNormal }

/-- Symbol array of the BECH32 alphabet (src/base32.go line 99). -/
def bech32Symbols : List Nat :=
  ['q', 'p', 'z', 'r', 'y', '9', 'x', '8', 'g', 'f', '2', 't', 'v', 'd', 'w', '0',
   's', '3', 'j', 'n', '5', '4', 'k', 'h', 'c', 'e', '6', 'm', 'u', 'a', '7', 'l'].map Char.toNat

/-- Alphabet string passed to `initDecodeTable` for BECH32 (src/base32.go line 100). -/
def bech32Alphabet : List Nat :=
  "qpzry9x8gf2tvdw0s3jn54khce6mua7l".toList.map Char.toNat

/-- The predefined BECH32 alphabet, normal order (src/base32.go lines 98-102). -/
def BECH32 : Alphabet :=
  { encodeSymbols := bech32Symbols
    decodeBytes := initDecodeTable bech32Alphabet
    encodeOrder := .OrderNormal }

/-- Encoded-length upper bound (src/base32.go `EncodedLen`). -/
def EncodedLen (bytesLen : Nat) : Nat :=
  bytesLen / 5 * 8 + bytesLen % 5 * 2 + 1

/-- Decoded-length upper bound (src/base32.go `DecodedLen`). -/
def DecodedLen (bytesLen : Nat) : Nat :=
  bytesLen / 8 * 5 + bytesLen % 8

/-- The `OrderInversed` branch of `EncodeToSlice` (src/base32.go lines
132-177), together with the trailing emit of lines 227-230 in the base case.
The second argument is `i % 5` for the Go loop counter `i`; `remain` is the
signed carry, `-1` meaning nothing pending.  In the cases that read `remain`
it is nonnegative (set by the previous case), so `Int.toNat` is exact. -/
def encodeLoopInversed (t : List Nat) : List Nat → Nat → Int → List Nat
  | [], _, remain =>
    if 0 ≤ remain then [t.getD (remain.toNat &&& 0x1F) 0] else []
  | b :: rest, p, remain =>
    match p with
    | 0 =>
      t.getD (b &&& 0x1F) 0 :: encodeLoopInversed t rest 1 (Int.ofNat (b >>> 5))
    | 1 =>
      let x := remain.toNat ||| (b <<< 3)
      t.getD (x &&& 0x1F) 0 :: t.getD ((x >>> 5) &&& 0x1F) 0 ::
        encodeLoopInversed t rest 2 (Int.ofNat (x >>> 10))
    | 2 =>
      let x := remain.toNat ||| (b <<< 1)
      t.getD (x &&& 0x1F) 0 :: encodeLoopInversed t rest 3 (Int.ofNat (x >>> 5))
    | 3 =>
      let x := remain.toNat ||| (b <<< 4)
      t.getD (x &&& 0x1F) 0 :: t.getD ((x >>> 5) &&& 0x1F) 0 ::
        encodeLoopInversed t rest 4 (Int.ofNat ((x >>> 10) &&& 0x3))
    | _ + 4 =>
      let x := remain.toNat ||| (b <<< 2)
      t.getD (x &&& 0x1F) 0 :: t.getD ((x >>> 5) &&& 0x1F) 0 ::
        encodeLoopInversed t rest 0 (-1)

/-- The `OrderNormal` branch of `EncodeToSlice` (src/base32.go lines 178-225),
with the trailing emit of lines 227-230 in the base case. -/
def encodeLoopNormal (t : List Nat) : List Nat → Nat → Int → List Nat
  | [], _, remain =>
    if 0 ≤ remain then [t.getD (remain.toNat &&& 0x1F) 0] else []
  | b :: rest, p, remain =>
    match p with
    | 0 =>
      t.getD ((b >>> 3) &&& 0x1F) 0 ::
        encodeLoopNormal t rest 1 (Int.ofNat ((b &&& 7) <<< 2))
    | 1 =>
      let x := (remain.toNat <<< 6) ||| b
      t.getD ((x >>> 6) &&& 0x1F) 0 :: t.getD ((x >>> 1) &&& 0x1F) 0 ::
        encodeLoopNormal t rest 2 (Int.ofNat ((x &&& 0x1) <<< 4))
    | 2 =>
      let x := (remain.toNat <<< 4) ||| b
      t.getD ((x >>> 4) &&& 0x1F) 0 ::
        encodeLoopNormal t rest 3 (Int.ofNat ((x &&& 15) <<< 1))
    | 3 =>
      let x := (remain.toNat <<< 7) ||| b
      t.getD ((x >>> 7) &&& 0x1F) 0 :: t.getD ((x >>> 2) &&& 0x1F) 0 ::
        encodeLoopNormal t rest 4 (Int.ofNat ((x &&& 3) <<< 3))
    | _ + 4 =>
      let x := (remain.toNat <<< 5) ||| b
      t.getD ((x >>> 5) &&& 0x1F) 0 :: t.getD (x &&& 0x1F) 0 ::
        encodeLoopNormal t rest 0 (-1)

/-- Encoding into a caller buffer (src/base32.go `EncodeToSlice`); the list of
symbols written is returned, its length being the Go return value. -/
def EncodeToSlice (input : List Nat) (alphabet : Alphabet) : List Nat :=
  match alphabet.encodeOrder with
  | .OrderInversed => encodeLoopInversed alphabet.encodeSymbols input 0 (-1)
  | .OrderNormal => encodeLoopNormal alphabet.encodeSymbols input 0 (-1)

/-- Allocating encode wrapper (src/base32.go `EncodeAlphabet`): the buffer of
size `EncodedLen` is truncated to the written count, which is exactly the
written list. -/
def EncodeAlphabet (input : List Nat) (alphabet : Alphabet) : List Nat :=
  EncodeToSlice input alphabet

/-- Default ZBASE32 encode (src/base32.go `Encode`). -/
def Encode (input : List Nat) : List Nat :=
  EncodeAlphabet input ZBASE32

/-- The `OrderInversed` branch of `DecodeAlphabetToSlice` (src/base32.go lines
272-299).  Arguments after the input are the loop index `i` (for error
offsets), `processedBits` and `acc`.  Returns the bytes written into the
buffer together with the error, if any: Go drains a pending byte before
checking the current symbol, so a write can precede a failure. -/
def decodeLoopInversed (dec : Nat → Nat) :
    List Nat → Nat → Nat → Nat → List Nat × Option DecodeError
  | [], _, processedBits, acc =>
    (if 0 < processedBits then [acc &&& 0xFF] else [], none)
  | c :: rest, i, processedBits, acc =>
    if 8 ≤ processedBits then
      if dec c = 0xff then
        ([acc &&& 0xFF], some ⟨"invalid byte", i, c⟩)
      else
        let r := decodeLoopInversed dec rest (i + 1) (processedBits - 8 + 5)
          ((dec c <<< (processedBits - 8)) ||| (acc >>> 8))
        ((acc &&& 0xFF) :: r.1, r.2)
    else
      if dec c = 0xff then
        ([], some ⟨"invalid byte", i, c⟩)
      else
        decodeLoopInversed dec rest (i + 1) (processedBits + 5)
          ((dec c <<< processedBits) ||| acc)

/-- The `OrderNormal` branch of `DecodeAlphabetToSlice` (src/base32.go lines
300-323). -/
def decodeLoopNormal (dec : Nat → Nat) :
    List Nat → Nat → Nat → Nat → List Nat × Option DecodeError
  | [], _, _, _ => ([], none)
  | c :: rest, i, processedBits, acc =>
    if dec c = 0xff then
      ([], some ⟨"invalid byte", i, c⟩)
    else
      let acc2 := (acc <<< 5) ||| dec c
      if 8 ≤ processedBits + 5 then
        let pb := processedBits + 5 - 8
        let r := decodeLoopNormal dec rest (i + 1) pb (acc2 &&& ((1 <<< pb) - 1))
        (((acc2 >>> pb) &&& 0xFF) :: r.1, r.2)
      else
        decodeLoopNormal dec rest (i + 1) (processedBits + 5) acc2

/-- Decoding into a caller buffer (src/base32.go `DecodeAlphabetToSlice`): on
success the bytes written are returned, on failure the error (the Go count
return value is 0 then, and the wrapper discards the buffer). -/
def DecodeAlphabetToSlice (input : List Nat) (alphabet : Alphabet) :
    Except DecodeError (List Nat) :=
  let r :=
    match alphabet.encodeOrder with
    | .OrderInversed => decodeLoopInversed alphabet.decodeBytes input 0 0 0
    | .OrderNormal => decodeLoopNormal alphabet.decodeBytes input 0 0 0
  match r.2 with
  | some e => .error e
  | none => .ok r.1

/-- Number of buffer writes `DecodeAlphabetToSlice` performs, counting writes
made before a failure (the Go code writes at consecutive indices 0, 1, ...,
so all writes are in bounds exactly when this count is at most the buffer
length). -/
def decodeWrites (input : List Nat) (alphabet : Alphabet) : Nat :=
  match alphabet.encodeOrder with
  | .OrderInversed => (decodeLoopInversed alphabet.decodeBytes input 0 0 0).1.length
  | .OrderNormal => (decodeLoopNormal alphabet.decodeBytes input 0 0 0).1.length

/-- Allocating decode wrapper (src/base32.go `DecodeAlphabet`). -/
def DecodeAlphabet (input : List Nat) (alphabet : Alphabet) :
    Except DecodeError (List Nat) :=
  DecodeAlphabetToSlice input alphabet

/-- Default ZBASE32 decode (src/base32.go `Decode`). -/
def Decode (input : List Nat) : Except DecodeError (List Nat) :=
  DecodeAlphabet input ZBASE32

/-- ZBASE32 with the order flag switched to Normal but the same symbol set:
the hypothetical alphabet of the legacy-divergence property. -/
def ZBASE32Normal : Alphabet :=
  { encodeSymbols := zbase32Symbols
    decodeBytes := initDecodeTable zbase32Alphabet
    encodeOrder := .OrderNormal }

section Helpers

lemma zero_le_ofNat (n : Nat) : (0 : Int) ≤ Int.ofNat n :=
  Int.natCast_nonneg n

lemma toNat_ofNat (n : Nat) : (Int.ofNat n).toNat = n := rfl

lemma lor_shl_eq_add (x y k : Nat) (h : y < 2 ^ k) :
    (x <<< k) ||| y = x * 2 ^ k + y := by
  apply Nat.eq_of_testBit_eq
  intro j
  rw [Nat.testBit_lor, Nat.testBit_shiftLeft, Nat.mul_comm x (2 ^ k),
    Nat.testBit_mul_pow_two_add x h j]
  by_cases hj : j < k
  · have : ¬ (k ≤ j) := by omega
    simp [hj, this]
  · have hy : y < 2 ^ j :=
      lt_of_lt_of_le h (Nat.pow_le_pow_right (by omega) (by omega))
    simp [hj, Nat.not_lt.1 hj, Nat.testBit_lt_two_pow hy]

lemma shl_lor_eq_add (x y k : Nat) (h : x < 2 ^ k) :
    x ||| (y <<< k) = y * 2 ^ k + x := by
  rw [Nat.lor_comm, lor_shl_eq_add _ _ _ h]

end Helpers

section EncodeLength

lemma encodeLoopInversed_length (t : List Nat) :
    ∀ (n : Nat) (input : List Nat), input.length ≤ n →
      (encodeLoopInversed t input 0 (-1)).length = (8 * input.length + 4) / 5 := by
  intro n
  induction n with
  | zero =>
    intro input h
    have hi : input = [] := List.eq_nil_of_length_eq_zero (Nat.le_zero.1 h)
    subst hi
    simp [encodeLoopInversed]
  | succ n ih =>
    intro input h
    match input with
    | [] => simp [encodeLoopInversed]
    | [b0] => simp [encodeLoopInversed, zero_le_ofNat]
    | [b0, b1] => simp [encodeLoopInversed, zero_le_ofNat]
    | [b0, b1, b2] => simp [encodeLoopInversed, zero_le_ofNat]
    | [b0, b1, b2, b3] => simp [encodeLoopInversed, zero_le_ofNat]
    | b0 :: b1 :: b2 :: b3 :: b4 :: rest =>
      have hr : rest.length ≤ n := by
        simp only [List.length_cons] at h
        omega
      have hrest := ih rest hr
      simp only [encodeLoopInversed, List.length_cons]
      rw [hrest]
      omega

lemma encodeLoopNormal_length (t : List Nat) :
    ∀ (n : Nat) (input : List Nat), input.length ≤ n →
      (encodeLoopNormal t input 0 (-1)).length = (8 * input.length + 4) / 5 := by
  intro n
  induction n with
  | zero =>
    intro input h
    have hi : input = [] := List.eq_nil_of_length_eq_zero (Nat.le_zero.1 h)
    subst hi
    simp [encodeLoopNormal]
  | succ n ih =>
    intro input h
    match input with
    | [] => simp [encodeLoopNormal]
    | [b0] => simp [encodeLoopNormal, zero_le_ofNat]
    | [b0, b1] => simp [encodeLoopNormal, zero_le_ofNat]
    | [b0, b1, b2] => simp [encodeLoopNormal, zero_le_ofNat]
    | [b0, b1, b2, b3] => simp [encodeLoopNormal, zero_le_ofNat]
    | b0 :: b1 :: b2 :: b3 :: b4 :: rest =>
      have hr : rest.length ≤ n := by
        simp only [List.length_cons] at h
        omega
      have hrest := ih rest hr
      simp only [encodeLoopNormal, List.length_cons]
      rw [hrest]
      omega

lemma encodeToSlice_length (input : List Nat) (alphabet : Alphabet) :
    (EncodeToSlice input alphabet).length = (8 * input.length + 4) / 5 := by
  unfold EncodeToSlice
  match alphabet.encodeOrder with
  | .OrderInversed => exact encodeLoopInversed_length _ input.length input le_rfl
  | .OrderNormal => exact encodeLoopNormal_length _ input.length input le_rfl

end EncodeLength

section DecodeWritesBounds

lemma decodeLoopInversed_writes (dec : Nat → Nat) :
    ∀ (input : List Nat) (i pb acc : Nat),
      (decodeLoopInversed dec input i pb acc).1.length ≤ (pb + 5 * input.length + 7) / 8 := by
  intro input
  induction input with
  | nil =>
    intro i pb acc
    simp only [decodeLoopInversed]
    by_cases h : 0 < pb
    · simp only [if_pos h, List.length_singleton, List.length_nil]
      omega
    · simp only [if_neg h, List.length_nil]
      omega
  | cons c rest ih =>
    intro i pb acc
    by_cases h8 : 8 ≤ pb
    · by_cases hc : dec c = 0xff
      · simp only [decodeLoopInversed, if_pos h8, if_pos hc, List.length_singleton]
        simp only [List.length_cons]
        omega
      · simp only [decodeLoopInversed, if_pos h8, if_neg hc, List.length_cons]
        have := ih (i + 1) (pb - 8 + 5) ((dec c <<< (pb - 8)) ||| (acc >>> 8))
        omega
    · by_cases hc : dec c = 0xff
      · simp only [decodeLoopInversed, if_neg h8, if_pos hc, List.length_nil,
          List.length_cons]
        omega
      · simp only [decodeLoopInversed, if_neg h8, if_neg hc, List.length_cons]
        have := ih (i + 1) (pb + 5) ((dec c <<< pb) ||| acc)
        omega

lemma decodeLoopNormal_writes (dec : Nat → Nat) :
    ∀ (input : List Nat) (i pb acc : Nat),
      (decodeLoopNormal dec input i pb acc).1.length ≤ (pb + 5 * input.length) / 8 := by
  intro input
  induction input with
  | nil =>
    intro i pb acc
    simp [decodeLoopNormal]
  | cons c rest ih =>
    intro i pb acc
    by_cases hc : dec c = 0xff
    · simp only [decodeLoopNormal, if_pos hc, List.length_nil, List.length_cons]
      omega
    · by_cases h8 : 8 ≤ pb + 5
      · simp only [decodeLoopNormal, if_neg hc, if_pos h8, List.length_cons]
        have := ih (i + 1) (pb + 5 - 8)
          ((((acc <<< 5) ||| dec c)) &&& ((1 <<< (pb + 5 - 8)) - 1))
        omega
      · simp only [decodeLoopNormal, if_neg hc, if_neg h8, List.length_cons]
        have := ih (i + 1) (pb + 5) ((acc <<< 5) ||| dec c)
        omega

lemma decodeWrites_le (input : List Nat) (alphabet : Alphabet) :
    decodeWrites input alphabet ≤ DecodedLen input.length := by
  cases halph : alphabet.encodeOrder with
  | OrderInversed =>
    have h := decodeLoopInversed_writes alphabet.decodeBytes input 0 0 0
    simp only [decodeWrites, halph, DecodedLen]
    omega
  | OrderNormal =>
    have h := decodeLoopNormal_writes alphabet.decodeBytes input 0 0 0
    simp only [decodeWrites, halph, DecodedLen]
    omega

end DecodeWritesBounds

/-- C2 counterexample: for the one-byte input [97] the written count is 2
while `EncodedLen 1 = 3`, although 1 is not a multiple of 5 — so the claim
that the two agree on non-multiples of 5 fails. -/
theorem claim2_counterexample :
    ([97] : List Nat).length % 5 ≠ 0 ∧
      (EncodeToSlice ([97]) ZBASE32).length ≠ EncodedLen ([97] : List Nat).length := by
  decide

/-- C2 (amended): for every input and every alphabet the written count equals
`EncodedLen n` minus one when `n % 5` is 0, 1 or 2, and `EncodedLen n` minus
two when `n % 5` is 3 or 4 (equivalently, it is `⌈8n/5⌉`); it never equals
`EncodedLen n` itself. -/
theorem claim2_written_count_amended (input : List Nat) (alphabet : Alphabet) :
    (EncodeToSlice input alphabet).length =
      EncodedLen input.length - (if input.length % 5 ≤ 2 then 1 else 2) ∧
      (EncodeToSlice input alphabet).length ≠ EncodedLen input.length := by
  rw [encodeToSlice_length]
  unfold EncodedLen
  by_cases h : input.length % 5 ≤ 2
  · rw [if_pos h]
    omega
  · rw [if_neg h]
    omega

/-- C7: the encoder writes at most `EncodedLen` symbols, and a successful
decode writes at most `DecodedLen` bytes. -/
theorem claim7_length_bounds (input : List Nat) (alphabet : Alphabet) :
    (EncodeToSlice input alphabet).length ≤ EncodedLen input.length ∧
      ∀ out, DecodeAlphabetToSlice input alphabet = .ok out →
        out.length ≤ DecodedLen input.length := by
  constructor
  · rw [encodeToSlice_length]
    unfold EncodedLen
    omega
  · intro out h
    cases halph : alphabet.encodeOrder with
    | OrderInversed =>
      simp only [DecodeAlphabetToSlice, halph] at h
      cases he : (decodeLoopInversed alphabet.decodeBytes input 0 0 0).2 with
      | some e =>
        rw [he] at h
        cases h
      | none =>
        rw [he] at h
        cases h
        have := decodeLoopInversed_writes alphabet.decodeBytes input 0 0 0
        unfold DecodedLen
        omega
    | OrderNormal =>
      simp only [DecodeAlphabetToSlice, halph] at h
      cases he : (decodeLoopNormal alphabet.decodeBytes input 0 0 0).2 with
      | some e =>
        rw [he] at h
        cases h
      | none =>
        rw [he] at h
        cases h
        have := decodeLoopNormal_writes alphabet.decodeBytes input 0 0 0
        unfold DecodedLen
        omega

/-- C7 witness: the bounds instantiated at a concrete input. -/
theorem claim7_length_bounds_witness :
    (EncodeToSlice ([104, 101, 108, 108, 111]) ZBASE32).length ≤ EncodedLen 5 ∧
      ([104, 101, 108, 108, 111] : List Nat).length ≤ DecodedLen 8 := by
  refine ⟨(claim7_length_bounds ([104, 101, 108, 108, 111]) ZBASE32).1, by decide⟩

section ErrorCharacterisation

lemma decodeLoopInversed_err_of_bad (dec : Nat → Nat) :
    ∀ (input : List Nat) (i pb acc : Nat), (∃ c ∈ input, dec c = 0xff) →
      (decodeLoopInversed dec input i pb acc).2 =
        some ⟨"invalid byte", i + input.findIdx (fun c => dec c == 0xff),
          input.getD (input.findIdx (fun c => dec c == 0xff)) 0⟩ := by
  intro input
  induction input with
  | nil =>
    intro i pb acc h
    simp at h
  | cons c rest ih =>
    intro i pb acc h
    by_cases hc : dec c = 0xff
    · have hcb : (dec c == 0xff) = true := by simp [hc]
      have hfi : (c :: rest).findIdx (fun c => dec c == 0xff) = 0 := by
        simp [List.findIdx_cons, hcb]
      rw [hfi]
      by_cases h8 : 8 ≤ pb
      · simp [decodeLoopInversed, if_pos h8, if_pos hc]
      · simp [decodeLoopInversed, if_neg h8, if_pos hc]
    · have hrest : ∃ b ∈ rest, dec b = 0xff := by
        rcases h with ⟨b, hb, hbad⟩
        rcases List.mem_cons.1 hb with rfl | hbrest
        · exact absurd hbad hc
        · exact ⟨b, hbrest, hbad⟩
      have hcb : (dec c == 0xff) = false := by simp [hc]
      have hfi : (c :: rest).findIdx (fun c => dec c == 0xff) =
          rest.findIdx (fun c => dec c == 0xff) + 1 := by
        simp [List.findIdx_cons, hcb]
      rw [hfi]
      by_cases h8 : 8 ≤ pb
      · simp only [decodeLoopInversed, if_pos h8, if_neg hc]
        rw [ih (i + 1) (pb - 8 + 5) ((dec c <<< (pb - 8)) ||| (acc >>> 8)) hrest]
        simp only [List.getD_cons_succ]
        rw [Nat.add_assoc, Nat.add_comm 1 (rest.findIdx (fun c => dec c == 0xff))]
      · simp only [decodeLoopInversed, if_neg h8, if_neg hc]
        rw [ih (i + 1) (pb + 5) ((dec c <<< pb) ||| acc) hrest]
        simp only [List.getD_cons_succ]
        rw [Nat.add_assoc, Nat.add_comm 1 (rest.findIdx (fun c => dec c == 0xff))]

lemma decodeLoopInversed_ok_of_valid (dec : Nat → Nat) :
    ∀ (input : List Nat) (i pb acc : Nat), (∀ c ∈ input, dec c ≠ 0xff) →
      (decodeLoopInversed dec input i pb acc).2 = none := by
  intro input
  induction input with
  | nil =>
    intro i pb acc _
    simp [decodeLoopInversed]
  | cons c rest ih =>
    intro i pb acc h
    have hc : dec c ≠ 0xff := h c (List.mem_cons_self c rest)
    have hrest : ∀ b ∈ rest, dec b ≠ 0xff := fun b hb => h b (List.mem_cons_of_mem c hb)
    by_cases h8 : 8 ≤ pb
    · simp only [decodeLoopInversed, if_pos h8, if_neg hc]
      exact ih (i + 1) (pb - 8 + 5) ((dec c <<< (pb - 8)) ||| (acc >>> 8)) hrest
    · simp only [decodeLoopInversed, if_neg h8, if_neg hc]
      exact ih (i + 1) (pb + 5) ((dec c <<< pb) ||| acc) hrest

lemma decodeLoopNormal_err_of_bad (dec : Nat → Nat) :
    ∀ (input : List Nat) (i pb acc : Nat), (∃ c ∈ input, dec c = 0xff) →
      (decodeLoopNormal dec input i pb acc).2 =
        some ⟨"invalid byte", i + input.findIdx (fun c => dec c == 0xff),
          input.getD (input.findIdx (fun c => dec c == 0xff)) 0⟩ := by
  intro input
  induction input with
  | nil =>
    intro i pb acc h
    simp at h
  | cons c rest ih =>
    intro i pb acc h
    by_cases hc : dec c = 0xff
    · have hcb : (dec c == 0xff) = true := by simp [hc]
      have hfi : (c :: rest).findIdx (fun c => dec c == 0xff) = 0 := by
        simp [List.findIdx_cons, hcb]
      rw [hfi]
      simp [decodeLoopNormal, if_pos hc]
    · have hrest : ∃ b ∈ rest, dec b = 0xff := by
        rcases h with ⟨b, hb, hbad⟩
        rcases List.mem_cons.1 hb with rfl | hbrest
        · exact absurd hbad hc
        · exact ⟨b, hbrest, hbad⟩
      have hcb : (dec c == 0xff) = false := by simp [hc]
      have hfi : (c :: rest).findIdx (fun c => dec c == 0xff) =
          rest.findIdx (fun c => dec c == 0xff) + 1 := by
        simp [List.findIdx_cons, hcb]
      rw [hfi]
      by_cases h8 : 8 ≤ pb + 5
      · simp only [decodeLoopNormal, if_neg hc, if_pos h8]
        rw [ih (i + 1) (pb + 5 - 8) ((((acc <<< 5) ||| dec c)) &&& ((1 <<< (pb + 5 - 8)) - 1)) hrest]
        simp only [List.getD_cons_succ]
        rw [Nat.add_assoc, Nat.add_comm 1 (rest.findIdx (fun c => dec c == 0xff))]
      · simp only [decodeLoopNormal, if_neg hc, if_neg h8]
        rw [ih (i + 1) (pb + 5) ((acc <<< 5) ||| dec c) hrest]
        simp only [List.getD_cons_succ]
        rw [Nat.add_assoc, Nat.add_comm 1 (rest.findIdx (fun c => dec c == 0xff))]

lemma decodeLoopNormal_ok_of_valid (dec : Nat → Nat) :
    ∀ (input : List Nat) (i pb acc : Nat), (∀ c ∈ input, dec c ≠ 0xff) →
      (decodeLoopNormal dec input i pb acc).2 = none := by
  intro input
  induction input with
  | nil =>
    intro i pb acc _
    simp [decodeLoopNormal]
  | cons c rest ih =>
    intro i pb acc h
    have hc : dec c ≠ 0xff := h c (List.mem_cons_self c rest)
    have hrest : ∀ b ∈ rest, dec b ≠ 0xff := fun b hb => h b (List.mem_cons_of_mem c hb)
    by_cases h8 : 8 ≤ pb + 5
    · simp only [decodeLoopNormal, if_neg hc, if_pos h8]
      exact ih (i + 1) (pb + 5 - 8) ((((acc <<< 5) ||| dec c)) &&& ((1 <<< (pb + 5 - 8)) - 1)) hrest
    · simp only [decodeLoopNormal, if_neg hc, if_neg h8]
      exact ih (i + 1) (pb + 5) ((acc <<< 5) ||| dec c) hrest

end ErrorCharacterisation

/-- C4: for every alphabet, decoding an input containing an invalid byte
fails with a `DecodeError` whose message is "invalid byte", whose offset is
the zero-based index of the first invalid byte (left-to-right scan) and
whose byte is that byte — the error result carries no partial output;
conversely an input whose bytes are all valid symbols never fails. -/
theorem claim4_invalid_rejection (alphabet : Alphabet) (input : List Nat) :
    ((∃ c ∈ input, alphabet.decodeBytes c = 0xff) →
      DecodeAlphabetToSlice input alphabet =
        .error ⟨"invalid byte",
          input.findIdx (fun c => alphabet.decodeBytes c == 0xff),
          input.getD (input.findIdx (fun c => alphabet.decodeBytes c == 0xff)) 0⟩) ∧
    ((∀ c ∈ input, alphabet.decodeBytes c ≠ 0xff) →
      ∃ out, DecodeAlphabetToSlice input alphabet = .ok out) := by
  constructor
  · intro h
    cases halph : alphabet.encodeOrder with
    | OrderInversed =>
      simp only [DecodeAlphabetToSlice, halph]
      rw [decodeLoopInversed_err_of_bad alphabet.decodeBytes input 0 0 0 h]
      simp
    | OrderNormal =>
      simp only [DecodeAlphabetToSlice, halph]
      rw [decodeLoopNormal_err_of_bad alphabet.decodeBytes input 0 0 0 h]
      simp
  · intro h
    cases halph : alphabet.encodeOrder with
    | OrderInversed =>
      simp only [DecodeAlphabetToSlice, halph]
      rw [decodeLoopInversed_ok_of_valid alphabet.decodeBytes input 0 0 0 h]
      exact ⟨_, rfl⟩
    | OrderNormal =>
      simp only [DecodeAlphabetToSlice, halph]
      rw [decodeLoopNormal_ok_of_valid alphabet.decodeBytes input 0 0 0 h]
      exact ⟨_, rfl⟩

/-- C4 witness: decoding [121, 33] ('y', '!') under ZBASE32 fails at offset 1
with byte 33, and the all-valid input [121] decodes without error. -/
theorem claim4_invalid_rejection_witness :
    DecodeAlphabetToSlice ([121, 33]) ZBASE32 =
      .error ⟨"invalid byte", 1, 33⟩ ∧
      ∃ out, DecodeAlphabetToSlice ([121]) ZBASE32 = .ok out := by
  constructor
  · have h := (claim4_invalid_rejection ZBASE32 ([121, 33])).1 (by decide)
    rw [h]
    rfl
  · exact (claim4_invalid_rejection ZBASE32 ([121])).2 (by decide)

section DecodeCounts

lemma decodeLoopNormal_ok_len (dec : Nat → Nat) :
    ∀ (input : List Nat) (i pb acc : Nat), pb < 8 → (∀ c ∈ input, dec c ≠ 0xff) →
      (decodeLoopNormal dec input i pb acc).1.length = (pb + 5 * input.length) / 8 := by
  intro input
  induction input with
  | nil =>
    intro i pb acc hpb _
    simp only [decodeLoopNormal, List.length_nil]
    omega
  | cons c rest ih =>
    intro i pb acc hpb h
    have hc : dec c ≠ 0xff := h c (List.mem_cons_self c rest)
    have hrest : ∀ b ∈ rest, dec b ≠ 0xff := fun b hb => h b (List.mem_cons_of_mem c hb)
    by_cases h8 : 8 ≤ pb + 5
    · simp only [decodeLoopNormal, if_neg hc, if_pos h8, List.length_cons]
      rw [ih (i + 1) (pb + 5 - 8) ((((acc <<< 5) ||| dec c)) &&& ((1 <<< (pb + 5 - 8)) - 1))
        (by omega) hrest]
      omega
    · simp only [decodeLoopNormal, if_neg hc, if_neg h8, List.length_cons]
      rw [ih (i + 1) (pb + 5) ((acc <<< 5) ||| dec c) (by omega) hrest]
      omega

end DecodeCounts

/-- C10: for a Normal-order alphabet a valid m-symbol input decodes to exactly
⌊5m/8⌋ bytes (leftover bits are discarded, so one valid symbol gives the
empty output), whereas for an Inverse-order alphabet one valid symbol decodes
to exactly one byte (a final byte is emitted from pending bits). -/
theorem claim10_decode_counts :
    (∀ (alphabet : Alphabet) (input : List Nat), alphabet.encodeOrder = .OrderNormal →
        (∀ c ∈ input, alphabet.decodeBytes c ≠ 0xff) →
        ∃ out, DecodeAlphabetToSlice input alphabet = .ok out ∧
          out.length = 5 * input.length / 8) ∧
    (∀ (alphabet : Alphabet) (c : Nat), alphabet.encodeOrder = .OrderInversed →
        alphabet.decodeBytes c ≠ 0xff →
        ∃ out, DecodeAlphabetToSlice ([c]) alphabet = .ok out ∧ out.length = 1) := by
  constructor
  · intro alphabet input halph h
    simp only [DecodeAlphabetToSlice, halph]
    rw [decodeLoopNormal_ok_of_valid alphabet.decodeBytes input 0 0 0 h]
    refine ⟨_, rfl, ?_⟩
    rw [decodeLoopNormal_ok_len alphabet.decodeBytes input 0 0 0 (by omega) h]
    omega
  · intro alphabet c halph hc
    simp only [DecodeAlphabetToSlice, halph]
    have h0 : ¬ (8 ≤ (0 : Nat)) := by omega
    simp only [decodeLoopInversed, if_neg h0, if_neg hc]
    exact ⟨_, rfl, rfl⟩

/-- C10 witness: decoding the single symbol 'M' under RFC4648 yields the
empty byte sequence, while decoding the single symbol 'y' under ZBASE32
yields exactly one byte. -/
theorem claim10_decode_counts_witness :
    (∃ out, DecodeAlphabetToSlice ([77]) RFC4648 = .ok out ∧
      out.length = 5 * ([77] : List Nat).length / 8) ∧
    (∃ out, DecodeAlphabetToSlice ([121]) ZBASE32 = .ok out ∧ out.length = 1) := by
  constructor
  · exact claim10_decode_counts.1 RFC4648 ([77]) rfl (by decide)
  · exact claim10_decode_counts.2 ZBASE32 121 rfl (by decide)

/-- C8: the literal vectors — encode("hello") and decode("em3ags7p") under
ZBASE32, encode("a") under ZBASE32, encode("hello") under RFC4648 — and, for
every alphabet, encoding and decoding of the empty sequence give the empty
sequence with no error. -/
theorem claim8_literal_vectors :
    EncodeAlphabet ([104, 101, 108, 108, 111]) ZBASE32 = [101, 109, 51, 97, 103, 115, 55, 112] ∧
    DecodeAlphabet ([101, 109, 51, 97, 103, 115, 55, 112]) ZBASE32 =
      .ok ([104, 101, 108, 108, 111]) ∧
    EncodeAlphabet ([97]) ZBASE32 = [98, 100] ∧
    EncodeAlphabet ([104, 101, 108, 108, 111]) RFC4648 = [78, 66, 83, 87, 89, 51, 68, 80] ∧
    ∀ alphabet : Alphabet, EncodeAlphabet ([]) alphabet = [] ∧
      DecodeAlphabet ([]) alphabet = .ok [] := by
  refine ⟨rfl, rfl, rfl, rfl, ?_⟩
  intro alphabet
  constructor
  · cases halph : alphabet.encodeOrder <;>
      simp [EncodeAlphabet, EncodeToSlice, halph, encodeLoopInversed, encodeLoopNormal]
  · cases halph : alphabet.encodeOrder <;>
      simp [DecodeAlphabet, DecodeAlphabetToSlice, halph, decodeLoopInversed, decodeLoopNormal]

/-- C3 counterexample: the two-byte input [0, 0] encodes to the same four
symbols under ZBASE32 (Inverse) and under the otherwise-identical
Normal-order alphabet, so the divergence is not universal for length ≥ 2. -/
theorem claim3_counterexample :
    (2 : Nat) ≤ ([0, 0] : List Nat).length ∧
      EncodeToSlice ([0, 0]) ZBASE32 = EncodeToSlice ([0, 0]) ZBASE32Normal := by
  decide

/-- C3 (amended): for every length n ≥ 2 there exists an input of that length
(all bytes in range) on which the ZBASE32 (Inverse) encoding differs from the
encoding under the otherwise-identical Normal-order alphabet; the divergence
does not hold for all such inputs (see the counterexample [0, 0]). -/
theorem claim3_divergence_amended (n : Nat) (h : 2 ≤ n) :
    ∃ input : List Nat, input.length = n ∧ (∀ b ∈ input, b < 256) ∧
      EncodeToSlice input ZBASE32 ≠ EncodeToSlice input ZBASE32Normal := by
  refine ⟨1 :: List.replicate (n - 1) 0, by simp; omega, ?_, ?_⟩
  · intro b hb
    rcases List.mem_cons.1 hb with rfl | hb
    · omega
    · have := List.eq_of_mem_replicate hb
      omega
  · intro hEq
    have h1 : (EncodeToSlice (1 :: List.replicate (n - 1) 0) ZBASE32).head? = some 98 := by
      have hstep : EncodeToSlice (1 :: List.replicate (n - 1) 0) ZBASE32 =
          zbase32Symbols.getD (1 &&& 0x1F) 0 ::
            encodeLoopInversed zbase32Symbols (List.replicate (n - 1) 0) 1
              (Int.ofNat (1 >>> 5)) := rfl
      rw [hstep]
      rfl
    have h2 : (EncodeToSlice (1 :: List.replicate (n - 1) 0) ZBASE32Normal).head? = some 121 := by
      have hstep : EncodeToSlice (1 :: List.replicate (n - 1) 0) ZBASE32Normal =
          zbase32Symbols.getD ((1 >>> 3) &&& 0x1F) 0 ::
            encodeLoopNormal zbase32Symbols (List.replicate (n - 1) 0) 1
              (Int.ofNat ((1 &&& 7) <<< 2)) := rfl
      rw [hstep]
      rfl
    rw [hEq, h2] at h1
    simp at h1

/-- C3 witness: the amended claim instantiated at length 2. -/
theorem claim3_divergence_amended_witness :
    ∃ input : List Nat, input.length = 2 ∧ (∀ b ∈ input, b < 256) ∧
      EncodeToSlice input ZBASE32 ≠ EncodeToSlice input ZBASE32Normal :=
  claim3_divergence_amended 2 (by omega)

/-- C9: encoding is a total function of its input and alphabet, and all buffer
writes are in bounds under the documented buffer-size preconditions: the
encoder performs at most `EncodedLen n` sequential writes and the decoder —
counting writes made before a failure — at most `DecodedLen n`. -/
theorem claim9_buffer_safety (input : List Nat) (alphabet : Alphabet) :
    (EncodeToSlice input alphabet).length ≤ EncodedLen input.length ∧
      decodeWrites input alphabet ≤ DecodedLen input.length := by
  constructor
  · rw [encodeToSlice_length]
    unfold EncodedLen
    omega
  · exact decodeWrites_le input alphabet

section AlphabetConstruction

lemma initDecodeLoop_not_mem :
    ∀ (l : List Nat) (t : Nat → Nat) (i x : Nat), x ∉ l →
      initDecodeLoop t i l x = t x := by
  intro l
  induction l with
  | nil =>
    intro t i x _
    rfl
  | cons b rest ih =>
    intro t i x hx
    have hxb : x ≠ b := fun hEq => hx (hEq ▸ List.mem_cons_self b rest)
    have hxr : x ∉ rest := fun hm => hx (List.mem_cons_of_mem b hm)
    show initDecodeLoop (setTab t b i) (i + 1) rest x = t x
    rw [ih (setTab t b i) (i + 1) x hxr]
    simp [setTab, hxb]

lemma initDecodeTable_not_mem (l : List Nat) (x : Nat) (h : x ∉ l) :
    initDecodeTable l x = 0xff := by
  unfold initDecodeTable
  rw [initDecodeLoop_not_mem l _ 0 x h]

lemma newAlphabetLoop_seen_disjoint :
    ∀ (l : List Nat) (dec : Nat → Nat) (seen : List Nat) (i : Nat) (dec' : Nat → Nat),
      newAlphabetLoop dec seen i l = .ok dec' → ∀ y ∈ seen, y ∉ l := by
  intro l
  induction l with
  | nil =>
    intro dec seen i dec' _ y _
    exact List.not_mem_nil y
  | cons b rest ih =>
    intro dec seen i dec' h y hy
    by_cases h1 : b < 32 ∨ 126 < b
    · rw [newAlphabetLoop, if_pos h1] at h
      cases h
    · by_cases h2 : b ∈ seen
      · rw [newAlphabetLoop, if_pos h2, if_neg h1] at h
        cases h
      · rw [newAlphabetLoop, if_neg h1, if_neg h2] at h
        have hrest := ih (setTab dec b i) (b :: seen) (i + 1) dec' h
        intro hmem
        rcases List.mem_cons.1 hmem with rfl | hmem
        · exact h2 hy
        · exact hrest y (List.mem_cons_of_mem b hy) hmem

lemma newAlphabetLoop_untouched :
    ∀ (l : List Nat) (dec : Nat → Nat) (seen : List Nat) (i : Nat) (dec' : Nat → Nat) (x : Nat),
      newAlphabetLoop dec seen i l = .ok dec' → x ∉ l → dec' x = dec x := by
  intro l
  induction l with
  | nil =>
    intro dec seen i dec' x h _
    cases h
    rfl
  | cons b rest ih =>
    intro dec seen i dec' x h hx
    have hxb : x ≠ b := fun hEq => hx (hEq ▸ List.mem_cons_self b rest)
    have hxr : x ∉ rest := fun hm => hx (List.mem_cons_of_mem b hm)
    by_cases h1 : b < 32 ∨ 126 < b
    · rw [newAlphabetLoop, if_pos h1] at h
      cases h
    · by_cases h2 : b ∈ seen
      · rw [newAlphabetLoop, if_pos h2, if_neg h1] at h
        cases h
      · rw [newAlphabetLoop, if_neg h1, if_neg h2] at h
        rw [ih (setTab dec b i) (b :: seen) (i + 1) dec' x h hxr]
        simp [setTab, hxb]

lemma newAlphabetLoop_getD :
    ∀ (l : List Nat) (dec : Nat → Nat) (seen : List Nat) (i : Nat) (dec' : Nat → Nat),
      newAlphabetLoop dec seen i l = .ok dec' →
        ∀ j, j < l.length → dec' (l.getD j 0) = i + j := by
  intro l
  induction l with
  | nil =>
    intro dec seen i dec' _ j hj
    simp at hj
  | cons b rest ih =>
    intro dec seen i dec' h j hj
    by_cases h1 : b < 32 ∨ 126 < b
    · rw [newAlphabetLoop, if_pos h1] at h
      cases h
    · by_cases h2 : b ∈ seen
      · rw [newAlphabetLoop, if_pos h2, if_neg h1] at h
        cases h
      · rw [newAlphabetLoop, if_neg h1, if_neg h2] at h
        match j with
        | 0 =>
          have hbr : b ∉ rest :=
            newAlphabetLoop_seen_disjoint rest (setTab dec b i) (b :: seen) (i + 1) dec' h b
              (List.mem_cons_self b seen)
          have := newAlphabetLoop_untouched rest (setTab dec b i) (b :: seen) (i + 1) dec' b h hbr
          simp only [List.getD_cons_zero]
          rw [this]
          simp [setTab]
        | j + 1 =>
          have := ih (setTab dec b i) (b :: seen) (i + 1) dec' h j
            (by simp only [List.length_cons] at hj; omega)
          simp only [List.getD_cons_succ]
          rw [this]
          omega

end AlphabetConstruction

/-- C5: alphabet bijectivity — for every alphabet successfully built by
`NewAlphabet` (whose symbol array is then the specification itself) and for
the three predefined alphabets, the decode table maps the i-th encode symbol
back to i for all i in 0..31, and maps every byte not occurring among the
encode symbols to the invalid sentinel 0xff. -/
theorem claim5_bijectivity :
    (∀ (spec : List Nat) (order : EncodeOrder),
      match NewAlphabet spec order with
      | .ok A =>
          A.encodeSymbols = spec ∧
          (∀ i, i < 32 → A.decodeBytes (A.encodeSymbols.getD i 0) = i) ∧
          (∀ x, x ∉ A.encodeSymbols → A.decodeBytes x = 0xff)
      | .error _ => True) ∧
    ((∀ i, i < 32 → ZBASE32.decodeBytes (ZBASE32.encodeSymbols.getD i 0) = i) ∧
      ∀ x, x ∉ ZBASE32.encodeSymbols → ZBASE32.decodeBytes x = 0xff) ∧
    ((∀ i, i < 32 → RFC4648.decodeBytes (RFC4648.encodeSymbols.getD i 0) = i) ∧
      ∀ x, x ∉ RFC4648.encodeSymbols → RFC4648.decodeBytes x = 0xff) ∧
    ((∀ i, i < 32 → BECH32.decodeBytes (BECH32.encodeSymbols.getD i 0) = i) ∧
      ∀ x, x ∉ BECH32.encodeSymbols → BECH32.decodeBytes x = 0xff) := by
  refine ⟨?_, ⟨by decide, ?_⟩, ⟨by decide, ?_⟩, ⟨by decide, ?_⟩⟩
  · intro spec order
    cases hN : NewAlphabet spec order with
    | error e => trivial
    | ok A =>
      by_cases hlen : spec.length ≠ 32
      · rw [NewAlphabet, if_pos hlen] at hN
        cases hN
      · rw [NewAlphabet, if_neg hlen] at hN
        cases hloop : newAlphabetLoop (fun _ => 0xff) [] 0 spec with
        | error e =>
          rw [hloop] at hN
          cases hN
        | ok dec =>
          rw [hloop] at hN
          simp only [Except.map] at hN
          cases hN
          refine ⟨rfl, ?_, ?_⟩
          · intro i hi
            have hi2 : i < spec.length := by omega
            have := newAlphabetLoop_getD spec (fun _ => 0xff) [] 0 dec hloop i hi2
            simpa using this
          · intro x hx
            have := newAlphabetLoop_untouched spec (fun _ => 0xff) [] 0 dec x hloop hx
            simpa using this
  · intro x hx
    have hsame : zbase32Symbols = zbase32Alphabet := by decide
    have hx2 : x ∉ zbase32Alphabet := by
      rw [← hsame]
      exact hx
    exact initDecodeTable_not_mem zbase32Alphabet x hx2
  · intro x hx
    have hsame : rfc4648Symbols = rfc4648Alphabet := by decide
    have hx2 : x ∉ rfc4648Alphabet := by
      rw [← hsame]
      exact hx
    exact initDecodeTable_not_mem rfc4648Alphabet x hx2
  · intro x hx
    have hsame : bech32Symbols = bech32Alphabet := by decide
    have hx2 : x ∉ bech32Alphabet := by
      rw [← hsame]
      exact hx
    exact initDecodeTable_not_mem bech32Alphabet x hx2

/-- C5 witness: concrete instances of the predefined bijectivity facts — the
first ZBASE32 symbol decodes to 0, the RFC4648 symbol 'Z' decodes to 25, and
the byte 33 ('!', not a BECH32 symbol) maps to the invalid sentinel. -/
theorem claim5_bijectivity_witness :
    ZBASE32.decodeBytes (ZBASE32.encodeSymbols.getD 0 0) = 0 ∧
      RFC4648.decodeBytes (RFC4648.encodeSymbols.getD 25 0) = 25 ∧
      BECH32.decodeBytes 33 = 0xff :=
  ⟨claim5_bijectivity.2.1.1 0 (by omega),
   claim5_bijectivity.2.2.1.1 25 (by omega),
   claim5_bijectivity.2.2.2.2 33 (by decide)⟩

section ConstructionErrors

lemma newAlphabetLoop_ok_of_good :
    ∀ (l : List Nat) (dec : Nat → Nat) (seen : List Nat) (i : Nat),
      (∀ b ∈ l, 32 ≤ b ∧ b ≤ 126) → l.Nodup → (∀ y ∈ l, y ∉ seen) →
      ∃ dec', newAlphabetLoop dec seen i l = .ok dec' := by
  intro l
  induction l with
  | nil =>
    intro dec seen i _ _ _
    exact ⟨dec, rfl⟩
  | cons b rest ih =>
    intro dec seen i hpr hnd hdisj
    have hb := hpr b (List.mem_cons_self b rest)
    have h1 : ¬ (b < 32 ∨ 126 < b) := by omega
    have h2 : b ∉ seen := hdisj b (List.mem_cons_self b rest)
    rw [newAlphabetLoop, if_neg h1, if_neg h2]
    refine ih (setTab dec b i) (b :: seen) (i + 1)
      (fun y hy => hpr y (List.mem_cons_of_mem b hy))
      (List.Nodup.of_cons hnd) ?_
    intro y hy hmem
    rcases List.mem_cons.1 hmem with rfl | hmem
    · exact (List.nodup_cons.1 hnd).1 hy
    · exact hdisj y (List.mem_cons_of_mem b hy) hmem

lemma newAlphabetLoop_unprintable :
    ∀ (l : List Nat) (dec : Nat → Nat) (seen : List Nat) (i : Nat),
      (∃ b ∈ l, b < 32 ∨ 126 < b) → l.Nodup → (∀ y ∈ l, y ∉ seen) →
      newAlphabetLoop dec seen i l = .error ("unprintable byte") := by
  intro l
  induction l with
  | nil =>
    intro dec seen i h _ _
    simp at h
  | cons b rest ih =>
    intro dec seen i h hnd hdisj
    by_cases h1 : b < 32 ∨ 126 < b
    · rw [newAlphabetLoop, if_pos h1]
    · have h2 : b ∉ seen := hdisj b (List.mem_cons_self b rest)
      rw [newAlphabetLoop, if_neg h1, if_neg h2]
      have hrest : ∃ y ∈ rest, y < 32 ∨ 126 < y := by
        rcases h with ⟨y, hy, hbad⟩
        rcases List.mem_cons.1 hy with rfl | hy
        · exact absurd hbad h1
        · exact ⟨y, hy, hbad⟩
      refine ih (setTab dec b i) (b :: seen) (i + 1) hrest (List.Nodup.of_cons hnd) ?_
      intro y hy hmem
      rcases List.mem_cons.1 hmem with rfl | hmem
      · exact (List.nodup_cons.1 hnd).1 hy
      · exact hdisj y (List.mem_cons_of_mem b hy) hmem

lemma newAlphabetLoop_duplicated :
    ∀ (l : List Nat) (dec : Nat → Nat) (seen : List Nat) (i : Nat),
      (∀ b ∈ l, 32 ≤ b ∧ b ≤ 126) → (¬ l.Nodup ∨ ∃ y ∈ l, y ∈ seen) →
      newAlphabetLoop dec seen i l = .error ("duplicated byte") := by
  intro l
  induction l with
  | nil =>
    intro dec seen i _ h
    rcases h with h | h
    · exact absurd List.nodup_nil h
    · simp at h
  | cons b rest ih =>
    intro dec seen i hpr h
    have hb := hpr b (List.mem_cons_self b rest)
    have h1 : ¬ (b < 32 ∨ 126 < b) := by omega
    by_cases h2 : b ∈ seen
    · rw [newAlphabetLoop, if_pos h2, if_neg h1]
    · rw [newAlphabetLoop, if_neg h1, if_neg h2]
      refine ih (setTab dec b i) (b :: seen) (i + 1)
        (fun y hy => hpr y (List.mem_cons_of_mem b hy)) ?_
      rcases h with h | ⟨y, hy, hseen⟩
      · rw [List.nodup_cons] at h
        push_neg at h
        by_cases hbr : b ∈ rest
        · exact Or.inr ⟨b, hbr, List.mem_cons_self b seen⟩
        · exact Or.inl (h hbr)
      · rcases List.mem_cons.1 hy with rfl | hy
        · exact absurd hseen h2
        · exact Or.inr ⟨y, hy, List.mem_cons_of_mem b hseen⟩

lemma newAlphabetLoop_error_msg :
    ∀ (l : List Nat) (dec : Nat → Nat) (seen : List Nat) (i : Nat) (m : String),
      newAlphabetLoop dec seen i l = .error m →
      m = "unprintable byte" ∨ m = "duplicated byte" := by
  intro l
  induction l with
  | nil =>
    intro dec seen i m h
    cases h
  | cons b rest ih =>
    intro dec seen i m h
    by_cases h1 : b < 32 ∨ 126 < b
    · rw [newAlphabetLoop, if_pos h1] at h
      cases h
      exact Or.inl rfl
    · by_cases h2 : b ∈ seen
      · rw [newAlphabetLoop, if_pos h2, if_neg h1] at h
        cases h
        exact Or.inr rfl
      · rw [newAlphabetLoop, if_neg h1, if_neg h2] at h
        exact ih (setTab dec b i) (b :: seen) (i + 1) m h

lemma newAlphabetLoop_first_problem :
    ∀ (l : List Nat) (dec : Nat → Nat) (seen : List Nat) (i j : Nat),
      (∀ k, k < j →
        ¬ (l.getD k 0 < 32 ∨ 126 < l.getD k 0 ∨ l.getD k 0 ∈ l.take k ∨
          l.getD k 0 ∈ seen)) →
      j < l.length →
      (l.getD j 0 < 32 ∨ 126 < l.getD j 0 ∨ l.getD j 0 ∈ l.take j ∨ l.getD j 0 ∈ seen) →
      newAlphabetLoop dec seen i l =
        .error (if l.getD j 0 < 32 ∨ 126 < l.getD j 0 then ("unprintable byte")
          else ("duplicated byte")) := by
  intro l
  induction l with
  | nil =>
    intro dec seen i j _ hj _
    simp at hj
  | cons b rest ih =>
    intro dec seen i j hno hj hprob
    match j with
    | 0 =>
      simp only [List.getD_cons_zero] at hprob ⊢
      by_cases hu : b < 32 ∨ 126 < b
      · rw [newAlphabetLoop, if_pos hu, if_pos hu]
      · have hmem : b ∈ seen := by
          rcases hprob with h | h | h | h
          · exact absurd (Or.inl h) hu
          · exact absurd (Or.inr h) hu
          · simp at h
          · exact h
        rw [newAlphabetLoop, if_neg hu, if_pos hmem, if_neg hu]
    | k + 1 =>
      have h0 := hno 0 (by omega)
      simp only [List.getD_cons_zero, List.take_zero, List.not_mem_nil] at h0
      push_neg at h0
      obtain ⟨h0a, h0b, _, h0c⟩ := h0
      have hu : ¬ (b < 32 ∨ 126 < b) := by omega
      rw [newAlphabetLoop, if_neg hu, if_neg h0c]
      have htrans : ∀ k2, k2 < k →
          ¬ (rest.getD k2 0 < 32 ∨ 126 < rest.getD k2 0 ∨ rest.getD k2 0 ∈ rest.take k2 ∨
            rest.getD k2 0 ∈ b :: seen) := by
        intro k2 hk2 hcon
        apply hno (k2 + 1) (by omega)
        simp only [List.getD_cons_succ, List.take_succ_cons]
        rcases hcon with h | h | h | h
        · exact Or.inl h
        · exact Or.inr (Or.inl h)
        · exact Or.inr (Or.inr (Or.inl (List.mem_cons_of_mem b h)))
        · rcases List.mem_cons.1 h with heq | h
          · exact Or.inr (Or.inr (Or.inl (by rw [heq]; exact List.mem_cons_self _ _)))
          · exact Or.inr (Or.inr (Or.inr h))
      have hprob2 : rest.getD k 0 < 32 ∨ 126 < rest.getD k 0 ∨ rest.getD k 0 ∈ rest.take k ∨
          rest.getD k 0 ∈ b :: seen := by
        have hp := hprob
        simp only [List.getD_cons_succ, List.take_succ_cons] at hp
        rcases hp with h | h | h | h
        · exact Or.inl h
        · exact Or.inr (Or.inl h)
        · rcases List.mem_cons.1 h with heq | h
          · exact Or.inr (Or.inr (Or.inr (by rw [heq]; exact List.mem_cons_self _ _)))
          · exact Or.inr (Or.inr (Or.inl h))
        · exact Or.inr (Or.inr (Or.inr (List.mem_cons_of_mem b h)))
      have hjlt : k < rest.length := by
        simp only [List.length_cons] at hj
        omega
      rw [ih (setTab dec b i) (b :: seen) (i + 1) k htrans hjlt hprob2]
      simp only [List.getD_cons_succ]

end ConstructionErrors

/-- C6 counterexample: a 32-byte specification in which a duplicate (97 at
positions 0 and 1) precedes an unprintable byte (1 at position 2) makes
`NewAlphabet` report the duplicate, not the unprintable byte — so "fails with
an unprintable-byte error when some byte is outside 0x20-0x7E" is false as a
universal statement. -/
theorem claim6_counterexample :
    (([97, 97, 1, 50, 51, 52, 53, 54, 55, 56, 57, 58, 59, 60, 61, 62, 63, 64,
        65, 66, 67, 68, 69, 70, 71, 72, 73, 74, 75, 76, 77, 78] : List Nat).length = 32 ∧
      ∃ b ∈ ([97, 97, 1, 50, 51, 52, 53, 54, 55, 56, 57, 58, 59, 60, 61, 62, 63, 64,
        65, 66, 67, 68, 69, 70, 71, 72, 73, 74, 75, 76, 77, 78] : List Nat),
          b < 32 ∨ 126 < b) ∧
      NewAlphabet ([97, 97, 1, 50, 51, 52, 53, 54, 55, 56, 57, 58, 59, 60, 61, 62, 63, 64,
        65, 66, 67, 68, 69, 70, 71, 72, 73, 74, 75, 76, 77, 78]) .OrderNormal ≠
        .error ("unprintable byte") := by
  refine ⟨by decide, ?_⟩
  intro h
  have h2 : (Except.error ("duplicated byte") : Except String Alphabet) =
      .error ("unprintable byte") := h
  injection h2 with hs
  exact absurd hs (by decide)

/-- C6 (amended): `NewAlphabet` fails with the invalid-length error exactly
when the specification length differs from 32; at length 32 it fails with the
unprintable-byte error when some byte is outside 0x20-0x7E and no byte
repeats, fails with the duplicated-byte error when a byte repeats and all
bytes are printable, and succeeds when all bytes are printable and distinct.
When both problems are present, the one noticed first in the left-to-right
scan is reported, the printability check coming first at equal positions: the
fifth clause states this in general — when position j is the first position
whose byte is unprintable or repeats an earlier byte, the reported error is
the unprintable one exactly when that byte is unprintable, and the duplicate
one otherwise.  "tooshort" fails with the length error and
"aacdefghijklmnopqrstuvwxyz234567" with the duplicate error. -/
theorem claim6_construction_amended :
    (∀ (spec : List Nat) (order : EncodeOrder), spec.length ≠ 32 →
        NewAlphabet spec order = .error ("invalid length - must be 32 bytes")) ∧
    (∀ (spec : List Nat) (order : EncodeOrder), spec.length = 32 →
        (∃ b ∈ spec, b < 32 ∨ 126 < b) → spec.Nodup →
        NewAlphabet spec order = .error ("unprintable byte")) ∧
    (∀ (spec : List Nat) (order : EncodeOrder), spec.length = 32 →
        (∀ b ∈ spec, 32 ≤ b ∧ b ≤ 126) → ¬ spec.Nodup →
        NewAlphabet spec order = .error ("duplicated byte")) ∧
    (∀ (spec : List Nat) (order : EncodeOrder), spec.length = 32 →
        (∀ b ∈ spec, 32 ≤ b ∧ b ≤ 126) → spec.Nodup →
        ∃ A, NewAlphabet spec order = .ok A) ∧
    (∀ (spec : List Nat) (order : EncodeOrder) (j : Nat), spec.length = 32 → j < 32 →
        (∀ k, k < j →
          ¬ (spec.getD k 0 < 32 ∨ 126 < spec.getD k 0 ∨ spec.getD k 0 ∈ spec.take k)) →
        (spec.getD j 0 < 32 ∨ 126 < spec.getD j 0 ∨ spec.getD j 0 ∈ spec.take j) →
        NewAlphabet spec order =
          .error (if spec.getD j 0 < 32 ∨ 126 < spec.getD j 0 then ("unprintable byte")
            else ("duplicated byte"))) ∧
    (∀ (spec : List Nat) (order : EncodeOrder), spec.length = 32 →
        NewAlphabet spec order ≠ .error ("invalid length - must be 32 bytes")) ∧
    NewAlphabet ("tooshort".toList.map Char.toNat) .OrderNormal =
      .error ("invalid length - must be 32 bytes") ∧
    NewAlphabet ("aacdefghijklmnopqrstuvwxyz234567".toList.map Char.toNat) .OrderNormal =
      .error ("duplicated byte") := by
  have hlenE : ∀ (spec : List Nat) (order : EncodeOrder), spec.length ≠ 32 →
      NewAlphabet spec order = .error ("invalid length - must be 32 bytes") := by
    intro spec order hlen
    rw [NewAlphabet, if_pos hlen]
  refine ⟨hlenE, ?_, ?_, ?_, ?_, ?_, ?_, ?_⟩
  · intro spec order hlen hbad hnd
    have hl2 : ¬ spec.length ≠ 32 := by omega
    rw [NewAlphabet, if_neg hl2,
      newAlphabetLoop_unprintable spec (fun _ => 0xff) [] 0 hbad hnd
        (fun y _ => List.not_mem_nil y)]
    rfl
  · intro spec order hlen hpr hnd
    have hl2 : ¬ spec.length ≠ 32 := by omega
    rw [NewAlphabet, if_neg hl2,
      newAlphabetLoop_duplicated spec (fun _ => 0xff) [] 0 hpr (Or.inl hnd)]
    rfl
  · intro spec order hlen hpr hnd
    have hl2 : ¬ spec.length ≠ 32 := by omega
    obtain ⟨dec, hdec⟩ := newAlphabetLoop_ok_of_good spec (fun _ => 0xff) [] 0 hpr hnd
      (fun y _ => List.not_mem_nil y)
    rw [NewAlphabet, if_neg hl2, hdec]
    exact ⟨_, rfl⟩
  · intro spec order j hlen hj hno hprob
    have hl2 : ¬ spec.length ≠ 32 := by omega
    have hno4 : ∀ k, k < j → ¬ (spec.getD k 0 < 32 ∨ 126 < spec.getD k 0 ∨
        spec.getD k 0 ∈ spec.take k ∨ spec.getD k 0 ∈ ([] : List Nat)) := by
      intro k hk hcon
      apply hno k hk
      rcases hcon with h | h | h | h
      · exact Or.inl h
      · exact Or.inr (Or.inl h)
      · exact Or.inr (Or.inr h)
      · exact absurd h (List.not_mem_nil _)
    have hprob4 : spec.getD j 0 < 32 ∨ 126 < spec.getD j 0 ∨ spec.getD j 0 ∈ spec.take j ∨
        spec.getD j 0 ∈ ([] : List Nat) := by
      rcases hprob with h | h | h
      · exact Or.inl h
      · exact Or.inr (Or.inl h)
      · exact Or.inr (Or.inr (Or.inl h))
    rw [NewAlphabet, if_neg hl2,
      newAlphabetLoop_first_problem spec (fun _ => 0xff) [] 0 j hno4 (by omega) hprob4]
    split <;> rfl
  · intro spec order hlen h
    have hl2 : ¬ spec.length ≠ 32 := by omega
    rw [NewAlphabet, if_neg hl2] at h
    cases hloop : newAlphabetLoop (fun _ => 0xff) [] 0 spec with
    | ok dec =>
      rw [hloop] at h
      cases h
    | error m =>
      rw [hloop] at h
      simp only [Except.map] at h
      injection h with hm
      rcases newAlphabetLoop_error_msg spec (fun _ => 0xff) [] 0 m hloop with h1 | h1 <;>
        rw [h1] at hm <;> exact absurd hm (by decide)
  · rfl
  · rfl

/-- C6 witness: each amended clause applied at a concrete specification — a
short spec gives the length error, a 32-byte nodup spec with the unprintable
byte 1 gives the unprintable error, the duplicate vector gives the duplicate
error, the RFC4648 specification builds successfully and does not give the
length error, and the scan-priority clause is exercised in both directions:
a spec whose first problem is the duplicate at position 1 (an unprintable
byte follows at position 2) reports the duplicate error, while a spec whose
first problem is the unprintable byte at position 0 (duplicates follow)
reports the unprintable error. -/
theorem claim6_construction_amended_witness :
    NewAlphabet ("tooshort".toList.map Char.toNat) .OrderInversed =
      .error ("invalid length - must be 32 bytes") ∧
    NewAlphabet ([1, 50, 51, 52, 53, 54, 55, 56, 57, 58, 59, 60, 61, 62, 63, 64,
        65, 66, 67, 68, 69, 70, 71, 72, 73, 74, 75, 76, 77, 78, 79, 80]) .OrderNormal =
      .error ("unprintable byte") ∧
    NewAlphabet ("aacdefghijklmnopqrstuvwxyz234567".toList.map Char.toNat) .OrderInversed =
      .error ("duplicated byte") ∧
    (∃ A, NewAlphabet rfc4648Alphabet .OrderNormal = .ok A) ∧
    NewAlphabet ([97, 97, 1, 50, 51, 52, 53, 54, 55, 56, 57, 58, 59, 60, 61, 62,
        63, 64, 65, 66, 67, 68, 69, 70, 71, 72, 73, 74, 75, 76, 77, 78]) .OrderNormal =
      .error ("duplicated byte") ∧
    NewAlphabet ([1, 97, 97, 50, 51, 52, 53, 54, 55, 56, 57, 58, 59, 60, 61, 62,
        63, 64, 65, 66, 67, 68, 69, 70, 71, 72, 73, 74, 75, 76, 77, 78]) .OrderInversed =
      .error ("unprintable byte") ∧
    NewAlphabet rfc4648Alphabet .OrderNormal ≠
      .error ("invalid length - must be 32 bytes") := by
  refine ⟨?_, ?_, ?_, ?_, ?_, ?_, ?_⟩
  · exact claim6_construction_amended.1 _ .OrderInversed (by decide)
  · exact claim6_construction_amended.2.1 _ .OrderNormal (by decide) (by decide) (by decide)
  · exact claim6_construction_amended.2.2.1 _ .OrderInversed (by decide) (by decide) (by decide)
  · exact claim6_construction_amended.2.2.2.1 _ .OrderNormal (by decide) (by decide) (by decide)
  · exact claim6_construction_amended.2.2.2.2.1 _ .OrderNormal 1
      (by decide) (by decide) (by decide) (by decide)
  · exact claim6_construction_amended.2.2.2.2.1 _ .OrderInversed 0
      (by decide) (by decide) (by decide) (by decide)
  · exact claim6_construction_amended.2.2.2.2.2.1 _ .OrderNormal (by decide)

section BitConversions

lemma andMask1 (a : Nat) : a &&& 0x1 = a % 2 :=
  Nat.and_one_is_mod a

lemma andMask3 (a : Nat) : a &&& 0x3 = a % 4 := by
  have h : (0x3 : Nat) = 2 ^ 2 - 1 := by norm_num
  rw [h, Nat.and_pow_two_sub_one_eq_mod]
  try norm_num

lemma andMask7 (a : Nat) : a &&& 7 = a % 8 := by
  have h : (7 : Nat) = 2 ^ 3 - 1 := by norm_num
  rw [h, Nat.and_pow_two_sub_one_eq_mod]
  try norm_num

lemma andMask15 (a : Nat) : a &&& 15 = a % 16 := by
  have h : (15 : Nat) = 2 ^ 4 - 1 := by norm_num
  rw [h, Nat.and_pow_two_sub_one_eq_mod]
  try norm_num

lemma andMask31 (a : Nat) : a &&& 0x1F = a % 32 := by
  have h : (0x1F : Nat) = 2 ^ 5 - 1 := by norm_num
  rw [h, Nat.and_pow_two_sub_one_eq_mod]
  try norm_num

lemma andMask255 (a : Nat) : a &&& 0xFF = a % 256 := by
  have h : (0xFF : Nat) = 2 ^ 8 - 1 := by norm_num
  rw [h, Nat.and_pow_two_sub_one_eq_mod]
  try norm_num

lemma shrDiv (a k : Nat) : a >>> k = a / 2 ^ k :=
  Nat.shiftRight_eq_div_pow a k

lemma shr1 (a : Nat) : a >>> 1 = a / 2 := by rw [shrDiv]; try norm_num
lemma shr2 (a : Nat) : a >>> 2 = a / 4 := by rw [shrDiv]; try norm_num
lemma shr3 (a : Nat) : a >>> 3 = a / 8 := by rw [shrDiv]; try norm_num
lemma shr4 (a : Nat) : a >>> 4 = a / 16 := by rw [shrDiv]; try norm_num
lemma shr5 (a : Nat) : a >>> 5 = a / 32 := by rw [shrDiv]; try norm_num
lemma shr6 (a : Nat) : a >>> 6 = a / 64 := by rw [shrDiv]; try norm_num
lemma shr7 (a : Nat) : a >>> 7 = a / 128 := by rw [shrDiv]; try norm_num
lemma shr8 (a : Nat) : a >>> 8 = a / 256 := by rw [shrDiv]; try norm_num
lemma shr10 (a : Nat) : a >>> 10 = a / 1024 := by rw [shrDiv]; try norm_num

lemma shl1 (a : Nat) : a <<< 1 = a * 2 := by rw [Nat.shiftLeft_eq]; try norm_num
lemma shl2 (a : Nat) : a <<< 2 = a * 4 := by rw [Nat.shiftLeft_eq]; try norm_num
lemma shl3 (a : Nat) : a <<< 3 = a * 8 := by rw [Nat.shiftLeft_eq]; try norm_num
lemma shl4 (a : Nat) : a <<< 4 = a * 16 := by rw [Nat.shiftLeft_eq]; try norm_num
lemma shl5 (a : Nat) : a <<< 5 = a * 32 := by rw [Nat.shiftLeft_eq]; try norm_num
lemma shl6 (a : Nat) : a <<< 6 = a * 64 := by rw [Nat.shiftLeft_eq]; try norm_num
lemma shl7 (a : Nat) : a <<< 7 = a * 128 := by rw [Nat.shiftLeft_eq]; try norm_num

lemma lorMulPow (x y k : Nat) (h : y < 2 ^ k) : x * 2 ^ k ||| y = x * 2 ^ k + y := by
  rw [← Nat.shiftLeft_eq, lor_shl_eq_add x y k h]
  rw [Nat.shiftLeft_eq]

lemma lorMul2 (x y : Nat) (h : y < 2) : x * 2 ||| y = x * 2 + y := by
  have := lorMulPow x y 1 (by omega)
  norm_num at this
  exact this

lemma lorMul4 (x y : Nat) (h : y < 4) : x * 4 ||| y = x * 4 + y := by
  have := lorMulPow x y 2 (by omega)
  norm_num at this
  exact this

lemma lorMul8 (x y : Nat) (h : y < 8) : x * 8 ||| y = x * 8 + y := by
  have := lorMulPow x y 3 (by omega)
  norm_num at this
  exact this

lemma lorMul16 (x y : Nat) (h : y < 16) : x * 16 ||| y = x * 16 + y := by
  have := lorMulPow x y 4 (by omega)
  norm_num at this
  exact this

lemma lorMul32 (x y : Nat) (h : y < 32) : x * 32 ||| y = x * 32 + y := by
  have := lorMulPow x y 5 (by omega)
  norm_num at this
  exact this

lemma lorMul64 (x y : Nat) (h : y < 64) : x * 64 ||| y = x * 64 + y := by
  have := lorMulPow x y 6 (by omega)
  norm_num at this
  exact this

lemma lorMul128 (x y : Nat) (h : y < 128) : x * 128 ||| y = x * 128 + y := by
  have := lorMulPow x y 7 (by omega)
  norm_num at this
  exact this

lemma lorMul256 (x y : Nat) (h : y < 256) : x * 256 ||| y = x * 256 + y := by
  have := lorMulPow x y 8 (by omega)
  norm_num at this
  exact this

lemma lorMul2R (x y : Nat) (h : x < 2) : x ||| y * 2 = y * 2 + x := by
  rw [Nat.lor_comm]
  exact lorMul2 y x h

lemma lorMul4R (x y : Nat) (h : x < 4) : x ||| y * 4 = y * 4 + x := by
  rw [Nat.lor_comm]
  exact lorMul4 y x h

lemma lorMul8R (x y : Nat) (h : x < 8) : x ||| y * 8 = y * 8 + x := by
  rw [Nat.lor_comm]
  exact lorMul8 y x h

lemma lorMul16R (x y : Nat) (h : x < 16) : x ||| y * 16 = y * 16 + x := by
  rw [Nat.lor_comm]
  exact lorMul16 y x h

end BitConversions

section DecodeStepLemmas

lemma decInv_cons_nodrain (dec : Nat → Nat) (c : Nat) (rest : List Nat)
    (i pb acc : Nat) (h8 : pb < 8) (hc : dec c ≠ 0xff) :
    decodeLoopInversed dec (c :: rest) i pb acc =
      decodeLoopInversed dec rest (i + 1) (pb + 5) ((dec c <<< pb) ||| acc) := by
  rw [decodeLoopInversed, if_neg (by omega : ¬ 8 ≤ pb), if_neg hc]

lemma decInv_cons_drain (dec : Nat → Nat) (c : Nat) (rest : List Nat)
    (i pb acc : Nat) (h8 : 8 ≤ pb) (hc : dec c ≠ 0xff) :
    decodeLoopInversed dec (c :: rest) i pb acc =
      ((acc &&& 0xFF) ::
        (decodeLoopInversed dec rest (i + 1) (pb - 8 + 5)
          ((dec c <<< (pb - 8)) ||| (acc >>> 8))).1,
       (decodeLoopInversed dec rest (i + 1) (pb - 8 + 5)
          ((dec c <<< (pb - 8)) ||| (acc >>> 8))).2) := by
  rw [decodeLoopInversed, if_pos h8, if_neg hc]

lemma decInv_nil (dec : Nat → Nat) (i pb acc : Nat) (h : 0 < pb) :
    decodeLoopInversed dec [] i pb acc = ([acc &&& 0xFF], none) := by
  rw [decodeLoopInversed, if_pos h]

lemma decInv_state8 (dec : Nat → Nat) (s : List Nat) (i acc : Nat) (hacc : acc < 256) :
    decodeLoopInversed dec s i 8 acc =
      (acc :: (decodeLoopInversed dec s i 0 0).1,
       (decodeLoopInversed dec s i 0 0).2) := by
  have hmod : acc &&& 0xFF = acc := by
    rw [andMask255]
    omega
  cases s with
  | nil =>
    rw [decInv_nil dec i 8 acc (by omega), decodeLoopInversed, if_neg (by omega : ¬ 0 < 0), hmod]
  | cons c cs =>
    have hshr : acc >>> 8 = 0 := by
      rw [shr8]
      omega
    by_cases hc : dec c = 0xff
    · rw [decodeLoopInversed, if_pos (by omega : (8 : Nat) ≤ 8), if_pos hc, hmod]
      rw [decodeLoopInversed, if_neg (by omega : ¬ (8 : Nat) ≤ 0), if_pos hc]
    · rw [decInv_cons_drain dec c cs i 8 acc (by omega) hc,
        decInv_cons_nodrain dec c cs i 0 0 (by omega) hc, hmod, hshr]

lemma decNorm_cons_noemit (dec : Nat → Nat) (c : Nat) (rest : List Nat)
    (i pb acc : Nat) (h8 : pb + 5 < 8) (hc : dec c ≠ 0xff) :
    decodeLoopNormal dec (c :: rest) i pb acc =
      decodeLoopNormal dec rest (i + 1) (pb + 5) ((acc <<< 5) ||| dec c) := by
  rw [decodeLoopNormal, if_neg hc, if_neg (by omega : ¬ 8 ≤ pb + 5)]

lemma decNorm_cons_emit (dec : Nat → Nat) (c : Nat) (rest : List Nat)
    (i pb acc : Nat) (h8 : 8 ≤ pb + 5) (hc : dec c ≠ 0xff) :
    decodeLoopNormal dec (c :: rest) i pb acc =
      (((((acc <<< 5) ||| dec c) >>> (pb + 5 - 8)) &&& 0xFF) ::
        (decodeLoopNormal dec rest (i + 1) (pb + 5 - 8)
          (((acc <<< 5) ||| dec c) &&& ((1 <<< (pb + 5 - 8)) - 1))).1,
       (decodeLoopNormal dec rest (i + 1) (pb + 5 - 8)
          (((acc <<< 5) ||| dec c) &&& ((1 <<< (pb + 5 - 8)) - 1))).2) := by
  rw [decodeLoopNormal, if_neg hc, if_pos h8]

lemma decNorm_nil (dec : Nat → Nat) (i pb acc : Nat) :
    decodeLoopNormal dec [] i pb acc = ([], none) := by
  rw [decodeLoopNormal]

end DecodeStepLemmas


section RoundTrip

set_option maxHeartbeats 1000000 in
lemma decInv_block (dec : Nat → Nat)
    (b0 b1 b2 b3 b4 x1 x2 x3 x4 σ0 σ1 σ2 σ3 σ4 σ5 σ6 σ7 : Nat)
    (s : List Nat) (i : Nat)
    (hb0 : b0 < 256) (hb1 : b1 < 256) (hb2 : b2 < 256) (hb3 : b3 < 256) (hb4 : b4 < 256)
    (hx1 : x1 = b0 / 32 + b1 * 8)
    (hx2 : x2 = x1 / 1024 + b2 * 2)
    (hx3 : x3 = x2 / 32 + b3 * 16)
    (hx4 : x4 = x3 / 1024 % 4 + b4 * 4)
    (h0 : dec σ0 = b0 % 32) (h1 : dec σ1 = x1 % 32) (h2 : dec σ2 = x1 / 32 % 32)
    (h3 : dec σ3 = x2 % 32) (h4 : dec σ4 = x3 % 32) (h5 : dec σ5 = x3 / 32 % 32)
    (h6 : dec σ6 = x4 % 32) (h7 : dec σ7 = x4 / 32 % 32) :
    decodeLoopInversed dec (σ0 :: σ1 :: σ2 :: σ3 :: σ4 :: σ5 :: σ6 :: σ7 :: s) i 0 0 =
      (b0 :: b1 :: b2 :: b3 :: b4 :: (decodeLoopInversed dec s (i + 8) 0 0).1,
       (decodeLoopInversed dec s (i + 8) 0 0).2) := by
  have hc0 : dec σ0 ≠ 0xff := by omega
  have hc1 : dec σ1 ≠ 0xff := by omega
  have hc2 : dec σ2 ≠ 0xff := by omega
  have hc3 : dec σ3 ≠ 0xff := by omega
  have hc4 : dec σ4 ≠ 0xff := by omega
  have hc5 : dec σ5 ≠ 0xff := by omega
  have hc6 : dec σ6 ≠ 0xff := by omega
  have hc7 : dec σ7 ≠ 0xff := by omega
  have hA0 : b0 % 32 < 32 := by omega
  have hA2d : (x1 % 32 * 32 + b0 % 32) / 256 < 4 := by omega
  have hA3b : x1 / 32 % 32 * 4 + (x1 % 32 * 32 + b0 % 32) / 256 < 128 := by omega
  have hA4d : (x2 % 32 * 128 + (x1 / 32 % 32 * 4 + (x1 % 32 * 32 + b0 % 32) / 256)) / 256 < 16 := by omega
  have hA5d : (x3 % 32 * 16 + (x2 % 32 * 128 + (x1 / 32 % 32 * 4 + (x1 % 32 * 32 + b0 % 32) / 256)) / 256) / 256 < 2 := by omega
  have hA6b : x3 / 32 % 32 * 2 + (x3 % 32 * 16 + (x2 % 32 * 128 + (x1 / 32 % 32 * 4 + (x1 % 32 * 32 + b0 % 32) / 256)) / 256) / 256 < 64 := by omega
  have hA7d : (x4 % 32 * 64 + (x3 / 32 % 32 * 2 + (x3 % 32 * 16 + (x2 % 32 * 128 + (x1 / 32 % 32 * 4 + (x1 % 32 * 32 + b0 % 32) / 256)) / 256) / 256)) / 256 < 8 := by omega
  have hA7b : x4 / 32 % 32 * 8 + (x4 % 32 * 64 + (x3 / 32 % 32 * 2 + (x3 % 32 * 16 + (x2 % 32 * 128 + (x1 / 32 % 32 * 4 + (x1 % 32 * 32 + b0 % 32) / 256)) / 256) / 256)) / 256 < 256 := by omega
  rw [decInv_cons_nodrain dec σ0 _ i 0 0 (by omega) hc0, h0, Nat.shiftLeft_zero,
    Nat.or_zero]
  rw [decInv_cons_nodrain dec σ1 _ (i + 1) 5 _ (by omega) hc1, h1, shl5,
    lorMul32 _ _ hA0]
  rw [decInv_cons_drain dec σ2 _ (i + 1 + 1) 10 _ (by omega) hc2]
  rw [h2, andMask255, shr8, shl2, lorMul4 _ _ hA2d]
  rw [decInv_cons_nodrain dec σ3 _ (i + 1 + 1 + 1) 7 _ (by omega) hc3, h3, shl7,
    lorMul128 _ _ hA3b]
  rw [decInv_cons_drain dec σ4 _ (i + 1 + 1 + 1 + 1) 12 _ (by omega) hc4]
  rw [h4, andMask255, shr8, shl4, lorMul16 _ _ hA4d]
  rw [decInv_cons_drain dec σ5 _ (i + 1 + 1 + 1 + 1 + 1) 9 _ (by omega) hc5]
  rw [h5, andMask255, shr8, shl1, lorMul2 _ _ hA5d]
  rw [decInv_cons_nodrain dec σ6 _ (i + 1 + 1 + 1 + 1 + 1 + 1) 6 _ (by omega) hc6, h6, shl6,
    lorMul64 _ _ hA6b]
  rw [decInv_cons_drain dec σ7 _ (i + 1 + 1 + 1 + 1 + 1 + 1 + 1) 11 _ (by omega) hc7]
  rw [h7, andMask255, shr8, shl3, lorMul8 _ _ hA7d]
  rw [decInv_state8 dec s _ _ hA7b]
  simp only [Prod.mk.injEq, List.cons.injEq, and_true]
  refine ⟨?_, ?_, ?_, ?_, ?_⟩ <;> omega

set_option maxHeartbeats 1000000 in
lemma decNorm_block (dec : Nat → Nat)
    (b0 b1 b2 b3 b4 y1 y2 y3 y4 σ0 σ1 σ2 σ3 σ4 σ5 σ6 σ7 : Nat)
    (s : List Nat) (i : Nat)
    (hb0 : b0 < 256) (hb1 : b1 < 256) (hb2 : b2 < 256) (hb3 : b3 < 256) (hb4 : b4 < 256)
    (hy1 : y1 = b0 % 8 * 256 + b1)
    (hy2 : y2 = y1 % 2 * 256 + b2)
    (hy3 : y3 = y2 % 16 * 256 + b3)
    (hy4 : y4 = y3 % 4 * 256 + b4)
    (h0 : dec σ0 = b0 / 8 % 32) (h1 : dec σ1 = y1 / 64 % 32) (h2 : dec σ2 = y1 / 2 % 32)
    (h3 : dec σ3 = y2 / 16 % 32) (h4 : dec σ4 = y3 / 128 % 32) (h5 : dec σ5 = y3 / 4 % 32)
    (h6 : dec σ6 = y4 / 32 % 32) (h7 : dec σ7 = y4 % 32) :
    decodeLoopNormal dec (σ0 :: σ1 :: σ2 :: σ3 :: σ4 :: σ5 :: σ6 :: σ7 :: s) i 0 0 =
      (b0 :: b1 :: b2 :: b3 :: b4 :: (decodeLoopNormal dec s (i + 8) 0 0).1,
       (decodeLoopNormal dec s (i + 8) 0 0).2) := by
  have hc0 : dec σ0 ≠ 0xff := by omega
  have hc1 : dec σ1 ≠ 0xff := by omega
  have hc2 : dec σ2 ≠ 0xff := by omega
  have hc3 : dec σ3 ≠ 0xff := by omega
  have hc4 : dec σ4 ≠ 0xff := by omega
  have hc5 : dec σ5 ≠ 0xff := by omega
  have hc6 : dec σ6 ≠ 0xff := by omega
  have hc7 : dec σ7 ≠ 0xff := by omega
  have hv1 : y1 / 64 % 32 < 32 := by omega
  have hv2 : y1 / 2 % 32 < 32 := by omega
  have hv3 : y2 / 16 % 32 < 32 := by omega
  have hv4 : y3 / 128 % 32 < 32 := by omega
  have hv5 : y3 / 4 % 32 < 32 := by omega
  have hv6 : y4 / 32 % 32 < 32 := by omega
  have hv7 : y4 % 32 < 32 := by omega
  rw [decNorm_cons_noemit dec σ0 _ i 0 0 (by omega) hc0, Nat.zero_shiftLeft, Nat.zero_or, h0]
  rw [decNorm_cons_emit dec σ1 _ (i + 1) 5 _ (by omega) hc1]
  rw [show (5 + 5 - 8 : Nat) = 2 by rfl]
  rw [h1, shl5, lorMul32 _ _ hv1, andMask255, shr2,
    (by decide : ((1 : Nat) <<< 2) - 1 = 3), andMask3]
  rw [decNorm_cons_noemit dec σ2 _ (i + 1 + 1) 2 _ (by omega) hc2, h2, shl5,
    lorMul32 _ _ hv2]
  rw [decNorm_cons_emit dec σ3 _ (i + 1 + 1 + 1) 7 _ (by omega) hc3]
  rw [show (7 + 5 - 8 : Nat) = 4 by rfl]
  rw [h3, shl5, lorMul32 _ _ hv3, andMask255, shr4,
    (by decide : ((1 : Nat) <<< 4) - 1 = 15), andMask15]
  rw [decNorm_cons_emit dec σ4 _ (i + 1 + 1 + 1 + 1) 4 _ (by omega) hc4]
  rw [show (4 + 5 - 8 : Nat) = 1 by rfl]
  rw [h4, shl5, lorMul32 _ _ hv4, andMask255, shr1,
    (by decide : ((1 : Nat) <<< 1) - 1 = 1), andMask1]
  rw [decNorm_cons_noemit dec σ5 _ (i + 1 + 1 + 1 + 1 + 1) 1 _ (by omega) hc5, h5, shl5,
    lorMul32 _ _ hv5]
  rw [decNorm_cons_emit dec σ6 _ (i + 1 + 1 + 1 + 1 + 1 + 1) 6 _ (by omega) hc6]
  rw [show (6 + 5 - 8 : Nat) = 3 by rfl]
  rw [h6, shl5, lorMul32 _ _ hv6, andMask255, shr3,
    (by decide : ((1 : Nat) <<< 3) - 1 = 7), andMask7]
  rw [decNorm_cons_emit dec σ7 _ (i + 1 + 1 + 1 + 1 + 1 + 1 + 1) 3 _ (by omega) hc7]
  rw [show (3 + 5 - 8 : Nat) = 0 by rfl]
  rw [h7, shl5, lorMul32 _ _ hv7, andMask255, Nat.shiftRight_zero,
    (by decide : ((1 : Nat) <<< 0) - 1 = 0), Nat.and_zero]
  simp only [Prod.mk.injEq, List.cons.injEq, and_true]
  refine ⟨?_, ?_, ?_, ?_, ?_⟩ <;> omega

lemma decInv_tail1 (dec : Nat → Nat) (b0 σ0 σf : Nat) (i : Nat)
    (hb0 : b0 < 256)
    (h0 : dec σ0 = b0 % 32) (hf : dec σf = b0 / 32 % 32) :
    decodeLoopInversed dec [σ0, σf] i 0 0 = ([b0], none) := by
  have hc0 : dec σ0 ≠ 0xff := by omega
  have hcf : dec σf ≠ 0xff := by omega
  rw [decInv_cons_nodrain dec _ _ i 0 0 (by omega) hc0, h0, Nat.shiftLeft_zero, Nat.or_zero]
  rw [decInv_cons_nodrain dec _ _ (i + 1) 5 _ (by omega) hcf, hf, shl5,
    lorMul32 _ _ (by omega : b0 % 32 < 32)]
  rw [decInv_nil dec _ 10 _ (by omega), andMask255]
  simp only [Prod.mk.injEq, List.cons.injEq, and_true]
  omega

lemma decInv_tail2 (dec : Nat → Nat) (b0 b1 x1 σ0 σ1 σ2 σf : Nat) (i : Nat)
    (hb0 : b0 < 256) (hb1 : b1 < 256)
    (hx1 : x1 = b0 / 32 + b1 * 8)
    (h0 : dec σ0 = b0 % 32) (h1 : dec σ1 = x1 % 32) (h2 : dec σ2 = x1 / 32 % 32)
    (hf : dec σf = x1 / 1024 % 32) :
    decodeLoopInversed dec [σ0, σ1, σ2, σf] i 0 0 = ([b0, b1], none) := by
  have hc0 : dec σ0 ≠ 0xff := by omega
  have hc1 : dec σ1 ≠ 0xff := by omega
  have hc2 : dec σ2 ≠ 0xff := by omega
  have hcf : dec σf ≠ 0xff := by omega
  have hA2d : (x1 % 32 * 32 + b0 % 32) / 256 < 4 := by omega
  have hA3b : x1 / 32 % 32 * 4 + (x1 % 32 * 32 + b0 % 32) / 256 < 128 := by omega
  rw [decInv_cons_nodrain dec _ _ i 0 0 (by omega) hc0, h0, Nat.shiftLeft_zero, Nat.or_zero]
  rw [decInv_cons_nodrain dec _ _ (i + 1) 5 _ (by omega) hc1, h1, shl5,
    lorMul32 _ _ (by omega : b0 % 32 < 32)]
  rw [decInv_cons_drain dec _ _ (i + 1 + 1) 10 _ (by omega) hc2]
  rw [h2, andMask255, shr8, shl2, lorMul4 _ _ hA2d]
  rw [decInv_cons_nodrain dec _ _ (i + 1 + 1 + 1) 7 _ (by omega) hcf, hf, shl7,
    lorMul128 _ _ hA3b]
  rw [decInv_nil dec _ 12 _ (by omega), andMask255]
  simp only [Prod.mk.injEq, List.cons.injEq, and_true]
  refine ⟨?_, ?_⟩ <;> omega

set_option maxHeartbeats 1000000 in
lemma decInv_tail3 (dec : Nat → Nat) (b0 b1 b2 x1 x2 σ0 σ1 σ2 σ3 σf : Nat) (i : Nat)
    (hb0 : b0 < 256) (hb1 : b1 < 256) (hb2 : b2 < 256)
    (hx1 : x1 = b0 / 32 + b1 * 8) (hx2 : x2 = x1 / 1024 + b2 * 2)
    (h0 : dec σ0 = b0 % 32) (h1 : dec σ1 = x1 % 32) (h2 : dec σ2 = x1 / 32 % 32)
    (h3 : dec σ3 = x2 % 32) (hf : dec σf = x2 / 32 % 32) :
    decodeLoopInversed dec [σ0, σ1, σ2, σ3, σf] i 0 0 = ([b0, b1, b2], none) := by
  have hc0 : dec σ0 ≠ 0xff := by omega
  have hc1 : dec σ1 ≠ 0xff := by omega
  have hc2 : dec σ2 ≠ 0xff := by omega
  have hc3 : dec σ3 ≠ 0xff := by omega
  have hcf : dec σf ≠ 0xff := by omega
  have hA2d : (x1 % 32 * 32 + b0 % 32) / 256 < 4 := by omega
  have hA3b : x1 / 32 % 32 * 4 + (x1 % 32 * 32 + b0 % 32) / 256 < 128 := by omega
  have hA4d : (x2 % 32 * 128 + (x1 / 32 % 32 * 4 + (x1 % 32 * 32 + b0 % 32) / 256)) / 256 <
      16 := by omega
  rw [decInv_cons_nodrain dec _ _ i 0 0 (by omega) hc0, h0, Nat.shiftLeft_zero, Nat.or_zero]
  rw [decInv_cons_nodrain dec _ _ (i + 1) 5 _ (by omega) hc1, h1, shl5,
    lorMul32 _ _ (by omega : b0 % 32 < 32)]
  rw [decInv_cons_drain dec _ _ (i + 1 + 1) 10 _ (by omega) hc2]
  rw [h2, andMask255, shr8, shl2, lorMul4 _ _ hA2d]
  rw [decInv_cons_nodrain dec _ _ (i + 1 + 1 + 1) 7 _ (by omega) hc3, h3, shl7,
    lorMul128 _ _ hA3b]
  rw [decInv_cons_drain dec _ _ (i + 1 + 1 + 1 + 1) 12 _ (by omega) hcf]
  rw [hf, andMask255, shr8, shl4, lorMul16 _ _ hA4d]
  rw [decInv_nil dec _ 9 _ (by omega), andMask255]
  simp only [Prod.mk.injEq, List.cons.injEq, and_true]
  refine ⟨?_, ?_, ?_⟩ <;> omega

set_option maxHeartbeats 1000000 in
lemma decInv_tail4 (dec : Nat → Nat) (b0 b1 b2 b3 x1 x2 x3 σ0 σ1 σ2 σ3 σ4 σ5 σf : Nat)
    (i : Nat)
    (hb0 : b0 < 256) (hb1 : b1 < 256) (hb2 : b2 < 256) (hb3 : b3 < 256)
    (hx1 : x1 = b0 / 32 + b1 * 8) (hx2 : x2 = x1 / 1024 + b2 * 2)
    (hx3 : x3 = x2 / 32 + b3 * 16)
    (h0 : dec σ0 = b0 % 32) (h1 : dec σ1 = x1 % 32) (h2 : dec σ2 = x1 / 32 % 32)
    (h3 : dec σ3 = x2 % 32) (h4 : dec σ4 = x3 % 32) (h5 : dec σ5 = x3 / 32 % 32)
    (hf : dec σf = x3 / 1024 % 4 % 32) :
    decodeLoopInversed dec [σ0, σ1, σ2, σ3, σ4, σ5, σf] i 0 0 =
      ([b0, b1, b2, b3], none) := by
  have hc0 : dec σ0 ≠ 0xff := by omega
  have hc1 : dec σ1 ≠ 0xff := by omega
  have hc2 : dec σ2 ≠ 0xff := by omega
  have hc3 : dec σ3 ≠ 0xff := by omega
  have hc4 : dec σ4 ≠ 0xff := by omega
  have hc5 : dec σ5 ≠ 0xff := by omega
  have hcf : dec σf ≠ 0xff := by omega
  have hA2d : (x1 % 32 * 32 + b0 % 32) / 256 < 4 := by omega
  have hA3b : x1 / 32 % 32 * 4 + (x1 % 32 * 32 + b0 % 32) / 256 < 128 := by omega
  have hA4d : (x2 % 32 * 128 + (x1 / 32 % 32 * 4 + (x1 % 32 * 32 + b0 % 32) / 256)) / 256 <
      16 := by omega
  have hA5d : (x3 % 32 * 16 +
      (x2 % 32 * 128 + (x1 / 32 % 32 * 4 + (x1 % 32 * 32 + b0 % 32) / 256)) / 256) / 256 <
      2 := by omega
  have hA6b : x3 / 32 % 32 * 2 + (x3 % 32 * 16 +
      (x2 % 32 * 128 + (x1 / 32 % 32 * 4 + (x1 % 32 * 32 + b0 % 32) / 256)) / 256) / 256 <
      64 := by omega
  rw [decInv_cons_nodrain dec _ _ i 0 0 (by omega) hc0, h0, Nat.shiftLeft_zero, Nat.or_zero]
  rw [decInv_cons_nodrain dec _ _ (i + 1) 5 _ (by omega) hc1, h1, shl5,
    lorMul32 _ _ (by omega : b0 % 32 < 32)]
  rw [decInv_cons_drain dec _ _ (i + 1 + 1) 10 _ (by omega) hc2]
  rw [h2, andMask255, shr8, shl2, lorMul4 _ _ hA2d]
  rw [decInv_cons_nodrain dec _ _ (i + 1 + 1 + 1) 7 _ (by omega) hc3, h3, shl7,
    lorMul128 _ _ hA3b]
  rw [decInv_cons_drain dec _ _ (i + 1 + 1 + 1 + 1) 12 _ (by omega) hc4]
  rw [h4, andMask255, shr8, shl4, lorMul16 _ _ hA4d]
  rw [decInv_cons_drain dec _ _ (i + 1 + 1 + 1 + 1 + 1) 9 _ (by omega) hc5]
  rw [h5, andMask255, shr8, shl1, lorMul2 _ _ hA5d]
  rw [decInv_cons_nodrain dec _ _ (i + 1 + 1 + 1 + 1 + 1 + 1) 6 _ (by omega) hcf, hf, shl6,
    lorMul64 _ _ hA6b]
  rw [decInv_nil dec _ 11 _ (by omega), andMask255]
  simp only [Prod.mk.injEq, List.cons.injEq, and_true]
  refine ⟨?_, ?_, ?_, ?_⟩ <;> omega

set_option maxHeartbeats 1000000 in
lemma roundInversed (t : List Nat) (dec : Nat → Nat)
    (hbij : ∀ v, v < 32 → dec (t.getD v 0) = v) :
    ∀ (n : Nat) (input : List Nat), input.length ≤ n → (∀ b ∈ input, b < 256) →
      ∀ i : Nat,
        decodeLoopInversed dec (encodeLoopInversed t input 0 (-1)) i 0 0 = (input, none) := by
  intro n
  induction n with
  | zero =>
    intro input hlen hb i
    have hnil : input = [] := List.eq_nil_of_length_eq_zero (Nat.le_zero.1 hlen)
    subst hnil
    simp [encodeLoopInversed, decodeLoopInversed]
  | succ n ih =>
    intro input hlen hb i
    match input with
    | [] => simp [encodeLoopInversed, decodeLoopInversed]
    | [b0] =>
      have hb0 : b0 < 256 := hb b0 (by simp)
      have henc : encodeLoopInversed t [b0] 0 (-1) = [t.getD (b0 &&& 0x1F) 0, t.getD (b0 >>> 5 &&& 0x1F) 0] := by
        simp only [encodeLoopInversed, toNat_ofNat, zero_le_ofNat, if_true]
      rw [henc]
      have hI0 : dec (t.getD (b0 &&& 0x1F) 0) = b0 % 32 := by
        rw [hbij _ (by simp only [andMask31]; omega)]
        simp only [andMask31, andMask3, shr5, shr10, shl1, shl2, shl3, shl4]
      have hF1 : dec (t.getD (b0 >>> 5 &&& 0x1F) 0) = b0 / 32 % 32 := by
        rw [hbij _ (by simp only [andMask31]; omega)]
        simp only [andMask31, andMask3, shr5, shr10, shl1, shl2, shl3, shl4]
      exact decInv_tail1 dec b0 _ _ i hb0 hI0 hF1
    | [b0, b1] =>
      have hb0 : b0 < 256 := hb b0 (by simp)
      have hb1 : b1 < 256 := hb b1 (by simp)
      have henc : encodeLoopInversed t [b0, b1] 0 (-1) = [t.getD (b0 &&& 0x1F) 0, t.getD ((b0 >>> 5 ||| b1 <<< 3) &&& 0x1F) 0, t.getD ((b0 >>> 5 ||| b1 <<< 3) >>> 5 &&& 0x1F) 0, t.getD ((b0 >>> 5 ||| b1 <<< 3) >>> 10 &&& 0x1F) 0] := by
        simp only [encodeLoopInversed, toNat_ofNat, zero_le_ofNat, if_true]
      rw [henc]
      have hI0 : dec (t.getD (b0 &&& 0x1F) 0) = b0 % 32 := by
        rw [hbij _ (by simp only [andMask31]; omega)]
        simp only [andMask31, andMask3, shr5, shr10, shl1, shl2, shl3, shl4]
      have hI1 : dec (t.getD ((b0 >>> 5 ||| b1 <<< 3) &&& 0x1F) 0) = (b1 * 8 + b0 / 32) % 32 := by
        rw [hbij _ (by simp only [andMask31]; omega)]
        simp only [andMask31, andMask3, shr5, shr10, shl1, shl2, shl3, shl4]
        rw [lorMul8R (b0 / 32) b1 (by omega)]
      have hI2 : dec (t.getD ((b0 >>> 5 ||| b1 <<< 3) >>> 5 &&& 0x1F) 0) = (b1 * 8 + b0 / 32) / 32 % 32 := by
        rw [hbij _ (by simp only [andMask31]; omega)]
        simp only [andMask31, andMask3, shr5, shr10, shl1, shl2, shl3, shl4]
        rw [lorMul8R (b0 / 32) b1 (by omega)]
      have hF2 : dec (t.getD ((b0 >>> 5 ||| b1 <<< 3) >>> 10 &&& 0x1F) 0) = (b1 * 8 + b0 / 32) / 1024 % 32 := by
        rw [hbij _ (by simp only [andMask31]; omega)]
        simp only [andMask31, andMask3, shr5, shr10, shl1, shl2, shl3, shl4]
        rw [lorMul8R (b0 / 32) b1 (by omega)]
      exact decInv_tail2 dec b0 b1 (b1 * 8 + b0 / 32) _ _ _ _ i hb0 hb1 (by omega) hI0 hI1 hI2 hF2
    | [b0, b1, b2] =>
      have hb0 : b0 < 256 := hb b0 (by simp)
      have hb1 : b1 < 256 := hb b1 (by simp)
      have hb2 : b2 < 256 := hb b2 (by simp)
      have henc : encodeLoopInversed t [b0, b1, b2] 0 (-1) =
          [t.getD (b0 &&& 0x1F) 0, t.getD ((b0 >>> 5 ||| b1 <<< 3) &&& 0x1F) 0, t.getD ((b0 >>> 5 ||| b1 <<< 3) >>> 5 &&& 0x1F) 0, t.getD (((b0 >>> 5 ||| b1 <<< 3) >>> 10 ||| b2 <<< 1) &&& 0x1F) 0, t.getD (((b0 >>> 5 ||| b1 <<< 3) >>> 10 ||| b2 <<< 1) >>> 5 &&& 0x1F) 0] := by
        simp only [encodeLoopInversed, toNat_ofNat, zero_le_ofNat, if_true]
      rw [henc]
      have hI0 : dec (t.getD (b0 &&& 0x1F) 0) = b0 % 32 := by
        rw [hbij _ (by simp only [andMask31]; omega)]
        simp only [andMask31, andMask3, shr5, shr10, shl1, shl2, shl3, shl4]
      have hI1 : dec (t.getD ((b0 >>> 5 ||| b1 <<< 3) &&& 0x1F) 0) = (b1 * 8 + b0 / 32) % 32 := by
        rw [hbij _ (by simp only [andMask31]; omega)]
        simp only [andMask31, andMask3, shr5, shr10, shl1, shl2, shl3, shl4]
        rw [lorMul8R (b0 / 32) b1 (by omega)]
      have hI2 : dec (t.getD ((b0 >>> 5 ||| b1 <<< 3) >>> 5 &&& 0x1F) 0) = (b1 * 8 + b0 / 32) / 32 % 32 := by
        rw [hbij _ (by simp only [andMask31]; omega)]
        simp only [andMask31, andMask3, shr5, shr10, shl1, shl2, shl3, shl4]
        rw [lorMul8R (b0 / 32) b1 (by omega)]
      have hI3 : dec (t.getD (((b0 >>> 5 ||| b1 <<< 3) >>> 10 ||| b2 <<< 1) &&& 0x1F) 0) = (b2 * 2 + (b1 * 8 + b0 / 32) / 1024) % 32 := by
        rw [hbij _ (by simp only [andMask31]; omega)]
        simp only [andMask31, andMask3, shr5, shr10, shl1, shl2, shl3, shl4]
        rw [lorMul8R (b0 / 32) b1 (by omega), lorMul2R ((b1 * 8 + b0 / 32) / 1024) b2 (by omega)]
      have hF3 : dec (t.getD (((b0 >>> 5 ||| b1 <<< 3) >>> 10 ||| b2 <<< 1) >>> 5 &&& 0x1F) 0) = (b2 * 2 + (b1 * 8 + b0 / 32) / 1024) / 32 % 32 := by
        rw [hbij _ (by simp only [andMask31]; omega)]
        simp only [andMask31, andMask3, shr5, shr10, shl1, shl2, shl3, shl4]
        rw [lorMul8R (b0 / 32) b1 (by omega), lorMul2R ((b1 * 8 + b0 / 32) / 1024) b2 (by omega)]
      exact decInv_tail3 dec b0 b1 b2 (b1 * 8 + b0 / 32) (b2 * 2 + (b1 * 8 + b0 / 32) / 1024) _ _ _ _ _ i hb0 hb1 hb2 (by omega)
        (by omega) hI0 hI1 hI2 hI3 hF3
    | [b0, b1, b2, b3] =>
      have hb0 : b0 < 256 := hb b0 (by simp)
      have hb1 : b1 < 256 := hb b1 (by simp)
      have hb2 : b2 < 256 := hb b2 (by simp)
      have hb3 : b3 < 256 := hb b3 (by simp)
      have henc : encodeLoopInversed t [b0, b1, b2, b3] 0 (-1) =
          [t.getD (b0 &&& 0x1F) 0, t.getD ((b0 >>> 5 ||| b1 <<< 3) &&& 0x1F) 0, t.getD ((b0 >>> 5 ||| b1 <<< 3) >>> 5 &&& 0x1F) 0, t.getD (((b0 >>> 5 ||| b1 <<< 3) >>> 10 ||| b2 <<< 1) &&& 0x1F) 0, t.getD ((((b0 >>> 5 ||| b1 <<< 3) >>> 10 ||| b2 <<< 1) >>> 5 ||| b3 <<< 4) &&& 0x1F) 0, t.getD ((((b0 >>> 5 ||| b1 <<< 3) >>> 10 ||| b2 <<< 1) >>> 5 ||| b3 <<< 4) >>> 5 &&& 0x1F) 0, t.getD ((((b0 >>> 5 ||| b1 <<< 3) >>> 10 ||| b2 <<< 1) >>> 5 ||| b3 <<< 4) >>> 10 &&& 0x3 &&& 0x1F) 0] := by
        simp only [encodeLoopInversed, toNat_ofNat, zero_le_ofNat, if_true]
      rw [henc]
      have hI0 : dec (t.getD (b0 &&& 0x1F) 0) = b0 % 32 := by
        rw [hbij _ (by simp only [andMask31]; omega)]
        simp only [andMask31, andMask3, shr5, shr10, shl1, shl2, shl3, shl4]
      have hI1 : dec (t.getD ((b0 >>> 5 ||| b1 <<< 3) &&& 0x1F) 0) = (b1 * 8 + b0 / 32) % 32 := by
        rw [hbij _ (by simp only [andMask31]; omega)]
        simp only [andMask31, andMask3, shr5, shr10, shl1, shl2, shl3, shl4]
        rw [lorMul8R (b0 / 32) b1 (by omega)]
      have hI2 : dec (t.getD ((b0 >>> 5 ||| b1 <<< 3) >>> 5 &&& 0x1F) 0) = (b1 * 8 + b0 / 32) / 32 % 32 := by
        rw [hbij _ (by simp only [andMask31]; omega)]
        simp only [andMask31, andMask3, shr5, shr10, shl1, shl2, shl3, shl4]
        rw [lorMul8R (b0 / 32) b1 (by omega)]
      have hI3 : dec (t.getD (((b0 >>> 5 ||| b1 <<< 3) >>> 10 ||| b2 <<< 1) &&& 0x1F) 0) = (b2 * 2 + (b1 * 8 + b0 / 32) / 1024) % 32 := by
        rw [hbij _ (by simp only [andMask31]; omega)]
        simp only [andMask31, andMask3, shr5, shr10, shl1, shl2, shl3, shl4]
        rw [lorMul8R (b0 / 32) b1 (by omega), lorMul2R ((b1 * 8 + b0 / 32) / 1024) b2 (by omega)]
      have hI4 : dec (t.getD ((((b0 >>> 5 ||| b1 <<< 3) >>> 10 ||| b2 <<< 1) >>> 5 ||| b3 <<< 4) &&& 0x1F) 0) = (b3 * 16 + (b2 * 2 + (b1 * 8 + b0 / 32) / 1024) / 32) % 32 := by
        rw [hbij _ (by simp only [andMask31]; omega)]
        simp only [andMask31, andMask3, shr5, shr10, shl1, shl2, shl3, shl4]
        rw [lorMul8R (b0 / 32) b1 (by omega), lorMul2R ((b1 * 8 + b0 / 32) / 1024) b2 (by omega), lorMul16R ((b2 * 2 + (b1 * 8 + b0 / 32) / 1024) / 32) b3 (by omega)]
      have hI5 : dec (t.getD ((((b0 >>> 5 ||| b1 <<< 3) >>> 10 ||| b2 <<< 1) >>> 5 ||| b3 <<< 4) >>> 5 &&& 0x1F) 0) = (b3 * 16 + (b2 * 2 + (b1 * 8 + b0 / 32) / 1024) / 32) / 32 % 32 := by
        rw [hbij _ (by simp only [andMask31]; omega)]
        simp only [andMask31, andMask3, shr5, shr10, shl1, shl2, shl3, shl4]
        rw [lorMul8R (b0 / 32) b1 (by omega), lorMul2R ((b1 * 8 + b0 / 32) / 1024) b2 (by omega), lorMul16R ((b2 * 2 + (b1 * 8 + b0 / 32) / 1024) / 32) b3 (by omega)]
      have hF4 : dec (t.getD ((((b0 >>> 5 ||| b1 <<< 3) >>> 10 ||| b2 <<< 1) >>> 5 ||| b3 <<< 4) >>> 10 &&& 0x3 &&& 0x1F) 0) = (b3 * 16 + (b2 * 2 + (b1 * 8 + b0 / 32) / 1024) / 32) / 1024 % 4 % 32 := by
        rw [hbij _ (by simp only [andMask31]; omega)]
        simp only [andMask31, andMask3, shr5, shr10, shl1, shl2, shl3, shl4]
        rw [lorMul8R (b0 / 32) b1 (by omega), lorMul2R ((b1 * 8 + b0 / 32) / 1024) b2 (by omega), lorMul16R ((b2 * 2 + (b1 * 8 + b0 / 32) / 1024) / 32) b3 (by omega)]
      exact decInv_tail4 dec b0 b1 b2 b3 (b1 * 8 + b0 / 32) (b2 * 2 + (b1 * 8 + b0 / 32) / 1024) (b3 * 16 + (b2 * 2 + (b1 * 8 + b0 / 32) / 1024) / 32) _ _ _ _ _ _ _ i hb0 hb1 hb2 hb3
        (by omega) (by omega) (by omega) hI0 hI1 hI2 hI3 hI4 hI5 hF4
    | b0 :: b1 :: b2 :: b3 :: b4 :: rest =>
      have hb0 : b0 < 256 := hb b0 (by simp)
      have hb1 : b1 < 256 := hb b1 (by simp)
      have hb2 : b2 < 256 := hb b2 (by simp)
      have hb3 : b3 < 256 := hb b3 (by simp)
      have hb4 : b4 < 256 := hb b4 (by simp)
      have hbrest : ∀ b ∈ rest, b < 256 := fun b hbm => hb b (by simp [hbm])
      have hlen2 : rest.length ≤ n := by
        simp only [List.length_cons] at hlen
        omega
      have henc : encodeLoopInversed t (b0 :: b1 :: b2 :: b3 :: b4 :: rest) 0 (-1) =
          t.getD (b0 &&& 0x1F) 0 :: t.getD ((b0 >>> 5 ||| b1 <<< 3) &&& 0x1F) 0 :: t.getD ((b0 >>> 5 ||| b1 <<< 3) >>> 5 &&& 0x1F) 0 :: t.getD (((b0 >>> 5 ||| b1 <<< 3) >>> 10 ||| b2 <<< 1) &&& 0x1F) 0 :: t.getD ((((b0 >>> 5 ||| b1 <<< 3) >>> 10 ||| b2 <<< 1) >>> 5 ||| b3 <<< 4) &&& 0x1F) 0 :: t.getD ((((b0 >>> 5 ||| b1 <<< 3) >>> 10 ||| b2 <<< 1) >>> 5 ||| b3 <<< 4) >>> 5 &&& 0x1F) 0 :: t.getD (((((b0 >>> 5 ||| b1 <<< 3) >>> 10 ||| b2 <<< 1) >>> 5 ||| b3 <<< 4) >>> 10 &&& 0x3 ||| b4 <<< 2) &&& 0x1F) 0 :: t.getD (((((b0 >>> 5 ||| b1 <<< 3) >>> 10 ||| b2 <<< 1) >>> 5 ||| b3 <<< 4) >>> 10 &&& 0x3 ||| b4 <<< 2) >>> 5 &&& 0x1F) 0 ::
            encodeLoopInversed t rest 0 (-1) := by
        simp only [encodeLoopInversed, toNat_ofNat]
      rw [henc]
      have hI0 : dec (t.getD (b0 &&& 0x1F) 0) = b0 % 32 := by
        rw [hbij _ (by simp only [andMask31]; omega)]
        simp only [andMask31, andMask3, shr5, shr10, shl1, shl2, shl3, shl4]
      have hI1 : dec (t.getD ((b0 >>> 5 ||| b1 <<< 3) &&& 0x1F) 0) = (b1 * 8 + b0 / 32) % 32 := by
        rw [hbij _ (by simp only [andMask31]; omega)]
        simp only [andMask31, andMask3, shr5, shr10, shl1, shl2, shl3, shl4]
        rw [lorMul8R (b0 / 32) b1 (by omega)]
      have hI2 : dec (t.getD ((b0 >>> 5 ||| b1 <<< 3) >>> 5 &&& 0x1F) 0) = (b1 * 8 + b0 / 32) / 32 % 32 := by
        rw [hbij _ (by simp only [andMask31]; omega)]
        simp only [andMask31, andMask3, shr5, shr10, shl1, shl2, shl3, shl4]
        rw [lorMul8R (b0 / 32) b1 (by omega)]
      have hI3 : dec (t.getD (((b0 >>> 5 ||| b1 <<< 3) >>> 10 ||| b2 <<< 1) &&& 0x1F) 0) = (b2 * 2 + (b1 * 8 + b0 / 32) / 1024) % 32 := by
        rw [hbij _ (by simp only [andMask31]; omega)]
        simp only [andMask31, andMask3, shr5, shr10, shl1, shl2, shl3, shl4]
        rw [lorMul8R (b0 / 32) b1 (by omega), lorMul2R ((b1 * 8 + b0 / 32) / 1024) b2 (by omega)]
      have hI4 : dec (t.getD ((((b0 >>> 5 ||| b1 <<< 3) >>> 10 ||| b2 <<< 1) >>> 5 ||| b3 <<< 4) &&& 0x1F) 0) = (b3 * 16 + (b2 * 2 + (b1 * 8 + b0 / 32) / 1024) / 32) % 32 := by
        rw [hbij _ (by simp only [andMask31]; omega)]
        simp only [andMask31, andMask3, shr5, shr10, shl1, shl2, shl3, shl4]
        rw [lorMul8R (b0 / 32) b1 (by omega), lorMul2R ((b1 * 8 + b0 / 32) / 1024) b2 (by omega), lorMul16R ((b2 * 2 + (b1 * 8 + b0 / 32) / 1024) / 32) b3 (by omega)]
      have hI5 : dec (t.getD ((((b0 >>> 5 ||| b1 <<< 3) >>> 10 ||| b2 <<< 1) >>> 5 ||| b3 <<< 4) >>> 5 &&& 0x1F) 0) = (b3 * 16 + (b2 * 2 + (b1 * 8 + b0 / 32) / 1024) / 32) / 32 % 32 := by
        rw [hbij _ (by simp only [andMask31]; omega)]
        simp only [andMask31, andMask3, shr5, shr10, shl1, shl2, shl3, shl4]
        rw [lorMul8R (b0 / 32) b1 (by omega), lorMul2R ((b1 * 8 + b0 / 32) / 1024) b2 (by omega), lorMul16R ((b2 * 2 + (b1 * 8 + b0 / 32) / 1024) / 32) b3 (by omega)]
      have hI6 : dec (t.getD (((((b0 >>> 5 ||| b1 <<< 3) >>> 10 ||| b2 <<< 1) >>> 5 ||| b3 <<< 4) >>> 10 &&& 0x3 ||| b4 <<< 2) &&& 0x1F) 0) = (b4 * 4 + (b3 * 16 + (b2 * 2 + (b1 * 8 + b0 / 32) / 1024) / 32) / 1024 % 4) % 32 := by
        rw [hbij _ (by simp only [andMask31]; omega)]
        simp only [andMask31, andMask3, shr5, shr10, shl1, shl2, shl3, shl4]
        rw [lorMul8R (b0 / 32) b1 (by omega), lorMul2R ((b1 * 8 + b0 / 32) / 1024) b2 (by omega), lorMul16R ((b2 * 2 + (b1 * 8 + b0 / 32) / 1024) / 32) b3 (by omega), lorMul4R ((b3 * 16 + (b2 * 2 + (b1 * 8 + b0 / 32) / 1024) / 32) / 1024 % 4) b4 (by omega)]
      have hI7 : dec (t.getD (((((b0 >>> 5 ||| b1 <<< 3) >>> 10 ||| b2 <<< 1) >>> 5 ||| b3 <<< 4) >>> 10 &&& 0x3 ||| b4 <<< 2) >>> 5 &&& 0x1F) 0) = (b4 * 4 + (b3 * 16 + (b2 * 2 + (b1 * 8 + b0 / 32) / 1024) / 32) / 1024 % 4) / 32 % 32 := by
        rw [hbij _ (by simp only [andMask31]; omega)]
        simp only [andMask31, andMask3, shr5, shr10, shl1, shl2, shl3, shl4]
        rw [lorMul8R (b0 / 32) b1 (by omega), lorMul2R ((b1 * 8 + b0 / 32) / 1024) b2 (by omega), lorMul16R ((b2 * 2 + (b1 * 8 + b0 / 32) / 1024) / 32) b3 (by omega), lorMul4R ((b3 * 16 + (b2 * 2 + (b1 * 8 + b0 / 32) / 1024) / 32) / 1024 % 4) b4 (by omega)]
      rw [decInv_block dec b0 b1 b2 b3 b4 (b1 * 8 + b0 / 32) (b2 * 2 + (b1 * 8 + b0 / 32) / 1024) (b3 * 16 + (b2 * 2 + (b1 * 8 + b0 / 32) / 1024) / 32) (b4 * 4 + (b3 * 16 + (b2 * 2 + (b1 * 8 + b0 / 32) / 1024) / 32) / 1024 % 4) _ _ _ _ _ _ _ _
        (encodeLoopInversed t rest 0 (-1)) i hb0 hb1 hb2 hb3 hb4 (by omega) (by omega)
        (by omega) (by omega) hI0 hI1 hI2 hI3 hI4 hI5 hI6 hI7]
      rw [ih rest hlen2 hbrest (i + 8)]

lemma decNorm_tail1 (dec : Nat → Nat) (b0 σ0 σf : Nat) (i : Nat)
    (hb0 : b0 < 256)
    (h0 : dec σ0 = b0 / 8 % 32) (hf : dec σf = b0 % 8 * 4 % 32) :
    decodeLoopNormal dec [σ0, σf] i 0 0 = ([b0], none) := by
  have hc0 : dec σ0 ≠ 0xff := by omega
  have hcf : dec σf ≠ 0xff := by omega
  rw [decNorm_cons_noemit dec _ _ i 0 0 (by omega) hc0, Nat.zero_shiftLeft, Nat.zero_or, h0]
  rw [decNorm_cons_emit dec _ _ (i + 1) 5 _ (by omega) hcf]
  rw [show (5 + 5 - 8 : Nat) = 2 by rfl]
  rw [hf, shl5, lorMul32 _ _ (by omega : b0 % 8 * 4 % 32 < 32), andMask255, shr2,
    (by decide : ((1 : Nat) <<< 2) - 1 = 3), andMask3]
  rw [decNorm_nil]
  simp only [Prod.mk.injEq, List.cons.injEq, and_true]
  omega

set_option maxHeartbeats 1000000 in
lemma decNorm_tail2 (dec : Nat → Nat) (b0 b1 y1 σ0 σ1 σ2 σf : Nat) (i : Nat)
    (hb0 : b0 < 256) (hb1 : b1 < 256)
    (hy1 : y1 = b0 % 8 * 256 + b1)
    (h0 : dec σ0 = b0 / 8 % 32) (h1 : dec σ1 = y1 / 64 % 32) (h2 : dec σ2 = y1 / 2 % 32)
    (hf : dec σf = y1 % 2 * 16 % 32) :
    decodeLoopNormal dec [σ0, σ1, σ2, σf] i 0 0 = ([b0, b1], none) := by
  have hc0 : dec σ0 ≠ 0xff := by omega
  have hc1 : dec σ1 ≠ 0xff := by omega
  have hc2 : dec σ2 ≠ 0xff := by omega
  have hcf : dec σf ≠ 0xff := by omega
  rw [decNorm_cons_noemit dec _ _ i 0 0 (by omega) hc0, Nat.zero_shiftLeft, Nat.zero_or, h0]
  rw [decNorm_cons_emit dec _ _ (i + 1) 5 _ (by omega) hc1]
  rw [show (5 + 5 - 8 : Nat) = 2 by rfl]
  rw [h1, shl5, lorMul32 _ _ (by omega : y1 / 64 % 32 < 32), andMask255, shr2,
    (by decide : ((1 : Nat) <<< 2) - 1 = 3), andMask3]
  rw [decNorm_cons_noemit dec _ _ (i + 1 + 1) 2 _ (by omega) hc2, h2, shl5,
    lorMul32 _ _ (by omega : y1 / 2 % 32 < 32)]
  rw [decNorm_cons_emit dec _ _ (i + 1 + 1 + 1) 7 _ (by omega) hcf]
  rw [show (7 + 5 - 8 : Nat) = 4 by rfl]
  rw [hf, shl5, lorMul32 _ _ (by omega : y1 % 2 * 16 % 32 < 32), andMask255, shr4,
    (by decide : ((1 : Nat) <<< 4) - 1 = 15), andMask15]
  rw [decNorm_nil]
  simp only [Prod.mk.injEq, List.cons.injEq, and_true]
  refine ⟨?_, ?_⟩ <;> omega

set_option maxHeartbeats 1000000 in
lemma decNorm_tail3 (dec : Nat → Nat) (b0 b1 b2 y1 y2 σ0 σ1 σ2 σ3 σf : Nat) (i : Nat)
    (hb0 : b0 < 256) (hb1 : b1 < 256) (hb2 : b2 < 256)
    (hy1 : y1 = b0 % 8 * 256 + b1) (hy2 : y2 = y1 % 2 * 256 + b2)
    (h0 : dec σ0 = b0 / 8 % 32) (h1 : dec σ1 = y1 / 64 % 32) (h2 : dec σ2 = y1 / 2 % 32)
    (h3 : dec σ3 = y2 / 16 % 32) (hf : dec σf = y2 % 16 * 2 % 32) :
    decodeLoopNormal dec [σ0, σ1, σ2, σ3, σf] i 0 0 = ([b0, b1, b2], none) := by
  have hc0 : dec σ0 ≠ 0xff := by omega
  have hc1 : dec σ1 ≠ 0xff := by omega
  have hc2 : dec σ2 ≠ 0xff := by omega
  have hc3 : dec σ3 ≠ 0xff := by omega
  have hcf : dec σf ≠ 0xff := by omega
  rw [decNorm_cons_noemit dec _ _ i 0 0 (by omega) hc0, Nat.zero_shiftLeft, Nat.zero_or, h0]
  rw [decNorm_cons_emit dec _ _ (i + 1) 5 _ (by omega) hc1]
  rw [show (5 + 5 - 8 : Nat) = 2 by rfl]
  rw [h1, shl5, lorMul32 _ _ (by omega : y1 / 64 % 32 < 32), andMask255, shr2,
    (by decide : ((1 : Nat) <<< 2) - 1 = 3), andMask3]
  rw [decNorm_cons_noemit dec _ _ (i + 1 + 1) 2 _ (by omega) hc2, h2, shl5,
    lorMul32 _ _ (by omega : y1 / 2 % 32 < 32)]
  rw [decNorm_cons_emit dec _ _ (i + 1 + 1 + 1) 7 _ (by omega) hc3]
  rw [show (7 + 5 - 8 : Nat) = 4 by rfl]
  rw [h3, shl5, lorMul32 _ _ (by omega : y2 / 16 % 32 < 32), andMask255, shr4,
    (by decide : ((1 : Nat) <<< 4) - 1 = 15), andMask15]
  rw [decNorm_cons_emit dec _ _ (i + 1 + 1 + 1 + 1) 4 _ (by omega) hcf]
  rw [show (4 + 5 - 8 : Nat) = 1 by rfl]
  rw [hf, shl5, lorMul32 _ _ (by omega : y2 % 16 * 2 % 32 < 32), andMask255, shr1,
    (by decide : ((1 : Nat) <<< 1) - 1 = 1), andMask1]
  rw [decNorm_nil]
  simp only [Prod.mk.injEq, List.cons.injEq, and_true]
  refine ⟨?_, ?_, ?_⟩ <;> omega

set_option maxHeartbeats 1000000 in
lemma decNorm_tail4 (dec : Nat → Nat) (b0 b1 b2 b3 y1 y2 y3 σ0 σ1 σ2 σ3 σ4 σ5 σf : Nat)
    (i : Nat)
    (hb0 : b0 < 256) (hb1 : b1 < 256) (hb2 : b2 < 256) (hb3 : b3 < 256)
    (hy1 : y1 = b0 % 8 * 256 + b1) (hy2 : y2 = y1 % 2 * 256 + b2)
    (hy3 : y3 = y2 % 16 * 256 + b3)
    (h0 : dec σ0 = b0 / 8 % 32) (h1 : dec σ1 = y1 / 64 % 32) (h2 : dec σ2 = y1 / 2 % 32)
    (h3 : dec σ3 = y2 / 16 % 32) (h4 : dec σ4 = y3 / 128 % 32) (h5 : dec σ5 = y3 / 4 % 32)
    (hf : dec σf = y3 % 4 * 8 % 32) :
    decodeLoopNormal dec [σ0, σ1, σ2, σ3, σ4, σ5, σf] i 0 0 =
      ([b0, b1, b2, b3], none) := by
  have hc0 : dec σ0 ≠ 0xff := by omega
  have hc1 : dec σ1 ≠ 0xff := by omega
  have hc2 : dec σ2 ≠ 0xff := by omega
  have hc3 : dec σ3 ≠ 0xff := by omega
  have hc4 : dec σ4 ≠ 0xff := by omega
  have hc5 : dec σ5 ≠ 0xff := by omega
  have hcf : dec σf ≠ 0xff := by omega
  rw [decNorm_cons_noemit dec _ _ i 0 0 (by omega) hc0, Nat.zero_shiftLeft, Nat.zero_or, h0]
  rw [decNorm_cons_emit dec _ _ (i + 1) 5 _ (by omega) hc1]
  rw [show (5 + 5 - 8 : Nat) = 2 by rfl]
  rw [h1, shl5, lorMul32 _ _ (by omega : y1 / 64 % 32 < 32), andMask255, shr2,
    (by decide : ((1 : Nat) <<< 2) - 1 = 3), andMask3]
  rw [decNorm_cons_noemit dec _ _ (i + 1 + 1) 2 _ (by omega) hc2, h2, shl5,
    lorMul32 _ _ (by omega : y1 / 2 % 32 < 32)]
  rw [decNorm_cons_emit dec _ _ (i + 1 + 1 + 1) 7 _ (by omega) hc3]
  rw [show (7 + 5 - 8 : Nat) = 4 by rfl]
  rw [h3, shl5, lorMul32 _ _ (by omega : y2 / 16 % 32 < 32), andMask255, shr4,
    (by decide : ((1 : Nat) <<< 4) - 1 = 15), andMask15]
  rw [decNorm_cons_emit dec _ _ (i + 1 + 1 + 1 + 1) 4 _ (by omega) hc4]
  rw [show (4 + 5 - 8 : Nat) = 1 by rfl]
  rw [h4, shl5, lorMul32 _ _ (by omega : y3 / 128 % 32 < 32), andMask255, shr1,
    (by decide : ((1 : Nat) <<< 1) - 1 = 1), andMask1]
  rw [decNorm_cons_noemit dec _ _ (i + 1 + 1 + 1 + 1 + 1) 1 _ (by omega) hc5, h5, shl5,
    lorMul32 _ _ (by omega : y3 / 4 % 32 < 32)]
  rw [decNorm_cons_emit dec _ _ (i + 1 + 1 + 1 + 1 + 1 + 1) 6 _ (by omega) hcf]
  rw [show (6 + 5 - 8 : Nat) = 3 by rfl]
  rw [hf, shl5, lorMul32 _ _ (by omega : y3 % 4 * 8 % 32 < 32), andMask255, shr3,
    (by decide : ((1 : Nat) <<< 3) - 1 = 7), andMask7]
  rw [decNorm_nil]
  simp only [Prod.mk.injEq, List.cons.injEq, and_true]
  refine ⟨?_, ?_, ?_, ?_⟩ <;> omega

set_option maxHeartbeats 1000000 in
lemma roundNormal (t : List Nat) (dec : Nat → Nat)
    (hbij : ∀ v, v < 32 → dec (t.getD v 0) = v) :
    ∀ (n : Nat) (input : List Nat), input.length ≤ n → (∀ b ∈ input, b < 256) →
      ∀ i : Nat,
        decodeLoopNormal dec (encodeLoopNormal t input 0 (-1)) i 0 0 = (input, none) := by
  intro n
  induction n with
  | zero =>
    intro input hlen hb i
    have hnil : input = [] := List.eq_nil_of_length_eq_zero (Nat.le_zero.1 hlen)
    subst hnil
    simp [encodeLoopNormal, decodeLoopNormal]
  | succ n ih =>
    intro input hlen hb i
    match input with
    | [] => simp [encodeLoopNormal, decodeLoopNormal]
    | [b0] =>
      have hb0 : b0 < 256 := hb b0 (by simp)
      have henc : encodeLoopNormal t [b0] 0 (-1) = [t.getD (b0 >>> 3 &&& 0x1F) 0, t.getD ((b0 &&& 7) <<< 2 &&& 0x1F) 0] := by
        simp only [encodeLoopNormal, toNat_ofNat, zero_le_ofNat, if_true]
      rw [henc]
      have hN0 : dec (t.getD (b0 >>> 3 &&& 0x1F) 0) = b0 / 8 % 32 := by
        rw [hbij _ (by simp only [andMask31]; omega)]
        simp only [andMask31, andMask7, andMask1, andMask15, andMask3, shr1, shr2, shr3, shr4, shr6, shr7, shl1, shl2, shl3, shl4, shl5, shl6, shl7, Nat.mul_assoc, Nat.reduceMul]
        try omega
      have hG1 : dec (t.getD ((b0 &&& 7) <<< 2 &&& 0x1F) 0) = b0 % 8 * 4 % 32 := by
        rw [hbij _ (by simp only [andMask31]; omega)]
        simp only [andMask31, andMask7, andMask1, andMask15, andMask3, shr1, shr2, shr3, shr4, shr6, shr7, shl1, shl2, shl3, shl4, shl5, shl6, shl7, Nat.mul_assoc, Nat.reduceMul]
        try omega
      exact decNorm_tail1 dec b0 _ _ i hb0 hN0 hG1
    | [b0, b1] =>
      have hb0 : b0 < 256 := hb b0 (by simp)
      have hb1 : b1 < 256 := hb b1 (by simp)
      have henc : encodeLoopNormal t [b0, b1] 0 (-1) = [t.getD (b0 >>> 3 &&& 0x1F) 0, t.getD (((b0 &&& 7) <<< 2 <<< 6 ||| b1) >>> 6 &&& 0x1F) 0, t.getD (((b0 &&& 7) <<< 2 <<< 6 ||| b1) >>> 1 &&& 0x1F) 0, t.getD ((((b0 &&& 7) <<< 2 <<< 6 ||| b1) &&& 0x1) <<< 4 &&& 0x1F) 0] := by
        simp only [encodeLoopNormal, toNat_ofNat, zero_le_ofNat, if_true]
      rw [henc]
      have hN0 : dec (t.getD (b0 >>> 3 &&& 0x1F) 0) = b0 / 8 % 32 := by
        rw [hbij _ (by simp only [andMask31]; omega)]
        simp only [andMask31, andMask7, andMask1, andMask15, andMask3, shr1, shr2, shr3, shr4, shr6, shr7, shl1, shl2, shl3, shl4, shl5, shl6, shl7, Nat.mul_assoc, Nat.reduceMul]
        try omega
      have hN1 : dec (t.getD (((b0 &&& 7) <<< 2 <<< 6 ||| b1) >>> 6 &&& 0x1F) 0) = (b0 % 8 * 256 + b1) / 64 % 32 := by
        rw [hbij _ (by simp only [andMask31]; omega)]
        simp only [andMask31, andMask7, andMask1, andMask15, andMask3, shr1, shr2, shr3, shr4, shr6, shr7, shl1, shl2, shl3, shl4, shl5, shl6, shl7, Nat.mul_assoc, Nat.reduceMul]
        rw [lorMul256 (b0 % 8) b1 (by omega)]
        try omega
      have hN2 : dec (t.getD (((b0 &&& 7) <<< 2 <<< 6 ||| b1) >>> 1 &&& 0x1F) 0) = (b0 % 8 * 256 + b1) / 2 % 32 := by
        rw [hbij _ (by simp only [andMask31]; omega)]
        simp only [andMask31, andMask7, andMask1, andMask15, andMask3, shr1, shr2, shr3, shr4, shr6, shr7, shl1, shl2, shl3, shl4, shl5, shl6, shl7, Nat.mul_assoc, Nat.reduceMul]
        rw [lorMul256 (b0 % 8) b1 (by omega)]
        try omega
      have hG2 : dec (t.getD ((((b0 &&& 7) <<< 2 <<< 6 ||| b1) &&& 0x1) <<< 4 &&& 0x1F) 0) = (b0 % 8 * 256 + b1) % 2 * 16 % 32 := by
        rw [hbij _ (by simp only [andMask31]; omega)]
        simp only [andMask31, andMask7, andMask1, andMask15, andMask3, shr1, shr2, shr3, shr4, shr6, shr7, shl1, shl2, shl3, shl4, shl5, shl6, shl7, Nat.mul_assoc, Nat.reduceMul]
        rw [lorMul256 (b0 % 8) b1 (by omega)]
        try omega
      exact decNorm_tail2 dec b0 b1 (b0 % 8 * 256 + b1) _ _ _ _ i hb0 hb1 (by omega) hN0 hN1 hN2 hG2
    | [b0, b1, b2] =>
      have hb0 : b0 < 256 := hb b0 (by simp)
      have hb1 : b1 < 256 := hb b1 (by simp)
      have hb2 : b2 < 256 := hb b2 (by simp)
      have henc : encodeLoopNormal t [b0, b1, b2] 0 (-1) =
          [t.getD (b0 >>> 3 &&& 0x1F) 0, t.getD (((b0 &&& 7) <<< 2 <<< 6 ||| b1) >>> 6 &&& 0x1F) 0, t.getD (((b0 &&& 7) <<< 2 <<< 6 ||| b1) >>> 1 &&& 0x1F) 0, t.getD (((((b0 &&& 7) <<< 2 <<< 6 ||| b1) &&& 0x1) <<< 4 <<< 4 ||| b2) >>> 4 &&& 0x1F) 0, t.getD ((((((b0 &&& 7) <<< 2 <<< 6 ||| b1) &&& 0x1) <<< 4 <<< 4 ||| b2) &&& 15) <<< 1 &&& 0x1F) 0] := by
        simp only [encodeLoopNormal, toNat_ofNat, zero_le_ofNat, if_true]
      rw [henc]
      have hN0 : dec (t.getD (b0 >>> 3 &&& 0x1F) 0) = b0 / 8 % 32 := by
        rw [hbij _ (by simp only [andMask31]; omega)]
        simp only [andMask31, andMask7, andMask1, andMask15, andMask3, shr1, shr2, shr3, shr4, shr6, shr7, shl1, shl2, shl3, shl4, shl5, shl6, shl7, Nat.mul_assoc, Nat.reduceMul]
        try omega
      have hN1 : dec (t.getD (((b0 &&& 7) <<< 2 <<< 6 ||| b1) >>> 6 &&& 0x1F) 0) = (b0 % 8 * 256 + b1) / 64 % 32 := by
        rw [hbij _ (by simp only [andMask31]; omega)]
        simp only [andMask31, andMask7, andMask1, andMask15, andMask3, shr1, shr2, shr3, shr4, shr6, shr7, shl1, shl2, shl3, shl4, shl5, shl6, shl7, Nat.mul_assoc, Nat.reduceMul]
        rw [lorMul256 (b0 % 8) b1 (by omega)]
        try omega
      have hN2 : dec (t.getD (((b0 &&& 7) <<< 2 <<< 6 ||| b1) >>> 1 &&& 0x1F) 0) = (b0 % 8 * 256 + b1) / 2 % 32 := by
        rw [hbij _ (by simp only [andMask31]; omega)]
        simp only [andMask31, andMask7, andMask1, andMask15, andMask3, shr1, shr2, shr3, shr4, shr6, shr7, shl1, shl2, shl3, shl4, shl5, shl6, shl7, Nat.mul_assoc, Nat.reduceMul]
        rw [lorMul256 (b0 % 8) b1 (by omega)]
        try omega
      have hN3 : dec (t.getD (((((b0 &&& 7) <<< 2 <<< 6 ||| b1) &&& 0x1) <<< 4 <<< 4 ||| b2) >>> 4 &&& 0x1F) 0) = ((b0 % 8 * 256 + b1) % 2 * 256 + b2) / 16 % 32 := by
        rw [hbij _ (by simp only [andMask31]; omega)]
        simp only [andMask31, andMask7, andMask1, andMask15, andMask3, shr1, shr2, shr3, shr4, shr6, shr7, shl1, shl2, shl3, shl4, shl5, shl6, shl7, Nat.mul_assoc, Nat.reduceMul]
        rw [lorMul256 (b0 % 8) b1 (by omega), lorMul256 ((b0 % 8 * 256 + b1) % 2) b2 (by omega)]
        try omega
      have hG3 : dec (t.getD ((((((b0 &&& 7) <<< 2 <<< 6 ||| b1) &&& 0x1) <<< 4 <<< 4 ||| b2) &&& 15) <<< 1 &&& 0x1F) 0) = ((b0 % 8 * 256 + b1) % 2 * 256 + b2) % 16 * 2 % 32 := by
        rw [hbij _ (by simp only [andMask31]; omega)]
        simp only [andMask31, andMask7, andMask1, andMask15, andMask3, shr1, shr2, shr3, shr4, shr6, shr7, shl1, shl2, shl3, shl4, shl5, shl6, shl7, Nat.mul_assoc, Nat.reduceMul]
        rw [lorMul256 (b0 % 8) b1 (by omega), lorMul256 ((b0 % 8 * 256 + b1) % 2) b2 (by omega)]
        try omega
      exact decNorm_tail3 dec b0 b1 b2 (b0 % 8 * 256 + b1) ((b0 % 8 * 256 + b1) % 2 * 256 + b2) _ _ _ _ _ i hb0 hb1 hb2 (by omega)
        (by omega) hN0 hN1 hN2 hN3 hG3
    | [b0, b1, b2, b3] =>
      have hb0 : b0 < 256 := hb b0 (by simp)
      have hb1 : b1 < 256 := hb b1 (by simp)
      have hb2 : b2 < 256 := hb b2 (by simp)
      have hb3 : b3 < 256 := hb b3 (by simp)
      have henc : encodeLoopNormal t [b0, b1, b2, b3] 0 (-1) =
          [t.getD (b0 >>> 3 &&& 0x1F) 0, t.getD (((b0 &&& 7) <<< 2 <<< 6 ||| b1) >>> 6 &&& 0x1F) 0, t.getD (((b0 &&& 7) <<< 2 <<< 6 ||| b1) >>> 1 &&& 0x1F) 0, t.getD (((((b0 &&& 7) <<< 2 <<< 6 ||| b1) &&& 0x1) <<< 4 <<< 4 ||| b2) >>> 4 &&& 0x1F) 0, t.getD (((((((b0 &&& 7) <<< 2 <<< 6 ||| b1) &&& 0x1) <<< 4 <<< 4 ||| b2) &&& 15) <<< 1 <<< 7 ||| b3) >>> 7 &&& 0x1F) 0, t.getD (((((((b0 &&& 7) <<< 2 <<< 6 ||| b1) &&& 0x1) <<< 4 <<< 4 ||| b2) &&& 15) <<< 1 <<< 7 ||| b3) >>> 2 &&& 0x1F) 0, t.getD ((((((((b0 &&& 7) <<< 2 <<< 6 ||| b1) &&& 0x1) <<< 4 <<< 4 ||| b2) &&& 15) <<< 1 <<< 7 ||| b3) &&& 3) <<< 3 &&& 0x1F) 0] := by
        simp only [encodeLoopNormal, toNat_ofNat, zero_le_ofNat, if_true]
      rw [henc]
      have hN0 : dec (t.getD (b0 >>> 3 &&& 0x1F) 0) = b0 / 8 % 32 := by
        rw [hbij _ (by simp only [andMask31]; omega)]
        simp only [andMask31, andMask7, andMask1, andMask15, andMask3, shr1, shr2, shr3, shr4, shr6, shr7, shl1, shl2, shl3, shl4, shl5, shl6, shl7, Nat.mul_assoc, Nat.reduceMul]
        try omega
      have hN1 : dec (t.getD (((b0 &&& 7) <<< 2 <<< 6 ||| b1) >>> 6 &&& 0x1F) 0) = (b0 % 8 * 256 + b1) / 64 % 32 := by
        rw [hbij _ (by simp only [andMask31]; omega)]
        simp only [andMask31, andMask7, andMask1, andMask15, andMask3, shr1, shr2, shr3, shr4, shr6, shr7, shl1, shl2, shl3, shl4, shl5, shl6, shl7, Nat.mul_assoc, Nat.reduceMul]
        rw [lorMul256 (b0 % 8) b1 (by omega)]
        try omega
      have hN2 : dec (t.getD (((b0 &&& 7) <<< 2 <<< 6 ||| b1) >>> 1 &&& 0x1F) 0) = (b0 % 8 * 256 + b1) / 2 % 32 := by
        rw [hbij _ (by simp only [andMask31]; omega)]
        simp only [andMask31, andMask7, andMask1, andMask15, andMask3, shr1, shr2, shr3, shr4, shr6, shr7, shl1, shl2, shl3, shl4, shl5, shl6, shl7, Nat.mul_assoc, Nat.reduceMul]
        rw [lorMul256 (b0 % 8) b1 (by omega)]
        try omega
      have hN3 : dec (t.getD (((((b0 &&& 7) <<< 2 <<< 6 ||| b1) &&& 0x1) <<< 4 <<< 4 ||| b2) >>> 4 &&& 0x1F) 0) = ((b0 % 8 * 256 + b1) % 2 * 256 + b2) / 16 % 32 := by
        rw [hbij _ (by simp only [andMask31]; omega)]
        simp only [andMask31, andMask7, andMask1, andMask15, andMask3, shr1, shr2, shr3, shr4, shr6, shr7, shl1, shl2, shl3, shl4, shl5, shl6, shl7, Nat.mul_assoc, Nat.reduceMul]
        rw [lorMul256 (b0 % 8) b1 (by omega), lorMul256 ((b0 % 8 * 256 + b1) % 2) b2 (by omega)]
        try omega
      have hN4 : dec (t.getD (((((((b0 &&& 7) <<< 2 <<< 6 ||| b1) &&& 0x1) <<< 4 <<< 4 ||| b2) &&& 15) <<< 1 <<< 7 ||| b3) >>> 7 &&& 0x1F) 0) = (((b0 % 8 * 256 + b1) % 2 * 256 + b2) % 16 * 256 + b3) / 128 % 32 := by
        rw [hbij _ (by simp only [andMask31]; omega)]
        simp only [andMask31, andMask7, andMask1, andMask15, andMask3, shr1, shr2, shr3, shr4, shr6, shr7, shl1, shl2, shl3, shl4, shl5, shl6, shl7, Nat.mul_assoc, Nat.reduceMul]
        rw [lorMul256 (b0 % 8) b1 (by omega), lorMul256 ((b0 % 8 * 256 + b1) % 2) b2 (by omega), lorMul256 (((b0 % 8 * 256 + b1) % 2 * 256 + b2) % 16) b3 (by omega)]
        try omega
      have hN5 : dec (t.getD (((((((b0 &&& 7) <<< 2 <<< 6 ||| b1) &&& 0x1) <<< 4 <<< 4 ||| b2) &&& 15) <<< 1 <<< 7 ||| b3) >>> 2 &&& 0x1F) 0) = (((b0 % 8 * 256 + b1) % 2 * 256 + b2) % 16 * 256 + b3) / 4 % 32 := by
        rw [hbij _ (by simp only [andMask31]; omega)]
        simp only [andMask31, andMask7, andMask1, andMask15, andMask3, shr1, shr2, shr3, shr4, shr6, shr7, shl1, shl2, shl3, shl4, shl5, shl6, shl7, Nat.mul_assoc, Nat.reduceMul]
        rw [lorMul256 (b0 % 8) b1 (by omega), lorMul256 ((b0 % 8 * 256 + b1) % 2) b2 (by omega), lorMul256 (((b0 % 8 * 256 + b1) % 2 * 256 + b2) % 16) b3 (by omega)]
        try omega
      have hG4 : dec (t.getD ((((((((b0 &&& 7) <<< 2 <<< 6 ||| b1) &&& 0x1) <<< 4 <<< 4 ||| b2) &&& 15) <<< 1 <<< 7 ||| b3) &&& 3) <<< 3 &&& 0x1F) 0) = (((b0 % 8 * 256 + b1) % 2 * 256 + b2) % 16 * 256 + b3) % 4 * 8 % 32 := by
        rw [hbij _ (by simp only [andMask31]; omega)]
        simp only [andMask31, andMask7, andMask1, andMask15, andMask3, shr1, shr2, shr3, shr4, shr6, shr7, shl1, shl2, shl3, shl4, shl5, shl6, shl7, Nat.mul_assoc, Nat.reduceMul]
        rw [lorMul256 (b0 % 8) b1 (by omega), lorMul256 ((b0 % 8 * 256 + b1) % 2) b2 (by omega), lorMul256 (((b0 % 8 * 256 + b1) % 2 * 256 + b2) % 16) b3 (by omega)]
        try omega
      exact decNorm_tail4 dec b0 b1 b2 b3 (b0 % 8 * 256 + b1) ((b0 % 8 * 256 + b1) % 2 * 256 + b2) (((b0 % 8 * 256 + b1) % 2 * 256 + b2) % 16 * 256 + b3) _ _ _ _ _ _ _ i hb0 hb1 hb2 hb3
        (by omega) (by omega) (by omega) hN0 hN1 hN2 hN3 hN4 hN5 hG4
    | b0 :: b1 :: b2 :: b3 :: b4 :: rest =>
      have hb0 : b0 < 256 := hb b0 (by simp)
      have hb1 : b1 < 256 := hb b1 (by simp)
      have hb2 : b2 < 256 := hb b2 (by simp)
      have hb3 : b3 < 256 := hb b3 (by simp)
      have hb4 : b4 < 256 := hb b4 (by simp)
      have hbrest : ∀ b ∈ rest, b < 256 := fun b hbm => hb b (by simp [hbm])
      have hlen2 : rest.length ≤ n := by
        simp only [List.length_cons] at hlen
        try omega
      have henc : encodeLoopNormal t (b0 :: b1 :: b2 :: b3 :: b4 :: rest) 0 (-1) =
          t.getD (b0 >>> 3 &&& 0x1F) 0 :: t.getD (((b0 &&& 7) <<< 2 <<< 6 ||| b1) >>> 6 &&& 0x1F) 0 :: t.getD (((b0 &&& 7) <<< 2 <<< 6 ||| b1) >>> 1 &&& 0x1F) 0 :: t.getD (((((b0 &&& 7) <<< 2 <<< 6 ||| b1) &&& 0x1) <<< 4 <<< 4 ||| b2) >>> 4 &&& 0x1F) 0 :: t.getD (((((((b0 &&& 7) <<< 2 <<< 6 ||| b1) &&& 0x1) <<< 4 <<< 4 ||| b2) &&& 15) <<< 1 <<< 7 ||| b3) >>> 7 &&& 0x1F) 0 :: t.getD (((((((b0 &&& 7) <<< 2 <<< 6 ||| b1) &&& 0x1) <<< 4 <<< 4 ||| b2) &&& 15) <<< 1 <<< 7 ||| b3) >>> 2 &&& 0x1F) 0 :: t.getD (((((((((b0 &&& 7) <<< 2 <<< 6 ||| b1) &&& 0x1) <<< 4 <<< 4 ||| b2) &&& 15) <<< 1 <<< 7 ||| b3) &&& 3) <<< 3 <<< 5 ||| b4) >>> 5 &&& 0x1F) 0 :: t.getD (((((((((b0 &&& 7) <<< 2 <<< 6 ||| b1) &&& 0x1) <<< 4 <<< 4 ||| b2) &&& 15) <<< 1 <<< 7 ||| b3) &&& 3) <<< 3 <<< 5 ||| b4) &&& 0x1F) 0 ::
            encodeLoopNormal t rest 0 (-1) := by
        simp only [encodeLoopNormal, toNat_ofNat]
      rw [henc]
      have hN0 : dec (t.getD (b0 >>> 3 &&& 0x1F) 0) = b0 / 8 % 32 := by
        rw [hbij _ (by simp only [andMask31]; omega)]
        simp only [andMask31, andMask7, andMask1, andMask15, andMask3, shr1, shr2, shr3, shr4, shr6, shr7, shl1, shl2, shl3, shl4, shl5, shl6, shl7, Nat.mul_assoc, Nat.reduceMul]
        try omega
      have hN1 : dec (t.getD (((b0 &&& 7) <<< 2 <<< 6 ||| b1) >>> 6 &&& 0x1F) 0) = (b0 % 8 * 256 + b1) / 64 % 32 := by
        rw [hbij _ (by simp only [andMask31]; omega)]
        simp only [andMask31, andMask7, andMask1, andMask15, andMask3, shr1, shr2, shr3, shr4, shr6, shr7, shl1, shl2, shl3, shl4, shl5, shl6, shl7, Nat.mul_assoc, Nat.reduceMul]
        rw [lorMul256 (b0 % 8) b1 (by omega)]
        try omega
      have hN2 : dec (t.getD (((b0 &&& 7) <<< 2 <<< 6 ||| b1) >>> 1 &&& 0x1F) 0) = (b0 % 8 * 256 + b1) / 2 % 32 := by
        rw [hbij _ (by simp only [andMask31]; omega)]
        simp only [andMask31, andMask7, andMask1, andMask15, andMask3, shr1, shr2, shr3, shr4, shr6, shr7, shl1, shl2, shl3, shl4, shl5, shl6, shl7, Nat.mul_assoc, Nat.reduceMul]
        rw [lorMul256 (b0 % 8) b1 (by omega)]
        try omega
      have hN3 : dec (t.getD (((((b0 &&& 7) <<< 2 <<< 6 ||| b1) &&& 0x1) <<< 4 <<< 4 ||| b2) >>> 4 &&& 0x1F) 0) = ((b0 % 8 * 256 + b1) % 2 * 256 + b2) / 16 % 32 := by
        rw [hbij _ (by simp only [andMask31]; omega)]
        simp only [andMask31, andMask7, andMask1, andMask15, andMask3, shr1, shr2, shr3, shr4, shr6, shr7, shl1, shl2, shl3, shl4, shl5, shl6, shl7, Nat.mul_assoc, Nat.reduceMul]
        rw [lorMul256 (b0 % 8) b1 (by omega), lorMul256 ((b0 % 8 * 256 + b1) % 2) b2 (by omega)]
        try omega
      have hN4 : dec (t.getD (((((((b0 &&& 7) <<< 2 <<< 6 ||| b1) &&& 0x1) <<< 4 <<< 4 ||| b2) &&& 15) <<< 1 <<< 7 ||| b3) >>> 7 &&& 0x1F) 0) = (((b0 % 8 * 256 + b1) % 2 * 256 + b2) % 16 * 256 + b3) / 128 % 32 := by
        rw [hbij _ (by simp only [andMask31]; omega)]
        simp only [andMask31, andMask7, andMask1, andMask15, andMask3, shr1, shr2, shr3, shr4, shr6, shr7, shl1, shl2, shl3, shl4, shl5, shl6, shl7, Nat.mul_assoc, Nat.reduceMul]
        rw [lorMul256 (b0 % 8) b1 (by omega), lorMul256 ((b0 % 8 * 256 + b1) % 2) b2 (by omega), lorMul256 (((b0 % 8 * 256 + b1) % 2 * 256 + b2) % 16) b3 (by omega)]
        try omega
      have hN5 : dec (t.getD (((((((b0 &&& 7) <<< 2 <<< 6 ||| b1) &&& 0x1) <<< 4 <<< 4 ||| b2) &&& 15) <<< 1 <<< 7 ||| b3) >>> 2 &&& 0x1F) 0) = (((b0 % 8 * 256 + b1) % 2 * 256 + b2) % 16 * 256 + b3) / 4 % 32 := by
        rw [hbij _ (by simp only [andMask31]; omega)]
        simp only [andMask31, andMask7, andMask1, andMask15, andMask3, shr1, shr2, shr3, shr4, shr6, shr7, shl1, shl2, shl3, shl4, shl5, shl6, shl7, Nat.mul_assoc, Nat.reduceMul]
        rw [lorMul256 (b0 % 8) b1 (by omega), lorMul256 ((b0 % 8 * 256 + b1) % 2) b2 (by omega), lorMul256 (((b0 % 8 * 256 + b1) % 2 * 256 + b2) % 16) b3 (by omega)]
        try omega
      have hN6 : dec (t.getD (((((((((b0 &&& 7) <<< 2 <<< 6 ||| b1) &&& 0x1) <<< 4 <<< 4 ||| b2) &&& 15) <<< 1 <<< 7 ||| b3) &&& 3) <<< 3 <<< 5 ||| b4) >>> 5 &&& 0x1F) 0) = ((((b0 % 8 * 256 + b1) % 2 * 256 + b2) % 16 * 256 + b3) % 4 * 256 + b4) / 32 % 32 := by
        rw [hbij _ (by simp only [andMask31]; omega)]
        simp only [andMask31, andMask7, andMask1, andMask15, andMask3, shr1, shr2, shr3, shr4, shr6, shr7, shl1, shl2, shl3, shl4, shl5, shl6, shl7, Nat.mul_assoc, Nat.reduceMul]
        rw [lorMul256 (b0 % 8) b1 (by omega), lorMul256 ((b0 % 8 * 256 + b1) % 2) b2 (by omega), lorMul256 (((b0 % 8 * 256 + b1) % 2 * 256 + b2) % 16) b3 (by omega), lorMul256 ((((b0 % 8 * 256 + b1) % 2 * 256 + b2) % 16 * 256 + b3) % 4) b4 (by omega)]
        try omega
      have hN7 : dec (t.getD (((((((((b0 &&& 7) <<< 2 <<< 6 ||| b1) &&& 0x1) <<< 4 <<< 4 ||| b2) &&& 15) <<< 1 <<< 7 ||| b3) &&& 3) <<< 3 <<< 5 ||| b4) &&& 0x1F) 0) = ((((b0 % 8 * 256 + b1) % 2 * 256 + b2) % 16 * 256 + b3) % 4 * 256 + b4) % 32 := by
        rw [hbij _ (by simp only [andMask31]; omega)]
        simp only [andMask31, andMask7, andMask1, andMask15, andMask3, shr1, shr2, shr3, shr4, shr6, shr7, shl1, shl2, shl3, shl4, shl5, shl6, shl7, Nat.mul_assoc, Nat.reduceMul]
        rw [lorMul256 (b0 % 8) b1 (by omega), lorMul256 ((b0 % 8 * 256 + b1) % 2) b2 (by omega), lorMul256 (((b0 % 8 * 256 + b1) % 2 * 256 + b2) % 16) b3 (by omega), lorMul256 ((((b0 % 8 * 256 + b1) % 2 * 256 + b2) % 16 * 256 + b3) % 4) b4 (by omega)]
        try omega
      rw [decNorm_block dec b0 b1 b2 b3 b4 (b0 % 8 * 256 + b1) ((b0 % 8 * 256 + b1) % 2 * 256 + b2) (((b0 % 8 * 256 + b1) % 2 * 256 + b2) % 16 * 256 + b3) ((((b0 % 8 * 256 + b1) % 2 * 256 + b2) % 16 * 256 + b3) % 4 * 256 + b4) _ _ _ _ _ _ _ _
        (encodeLoopNormal t rest 0 (-1)) i hb0 hb1 hb2 hb3 hb4 (by omega) (by omega)
        (by omega) (by omega) hN0 hN1 hN2 hN3 hN4 hN5 hN6 hN7]
      rw [ih rest hlen2 hbrest (i + 8)]

lemma zbase32_bijection :
    ∀ v, v < 32 → ZBASE32.decodeBytes (ZBASE32.encodeSymbols.getD v 0) = v := by
  decide

lemma rfc4648_bijection :
    ∀ v, v < 32 → RFC4648.decodeBytes (RFC4648.encodeSymbols.getD v 0) = v := by
  decide

lemma bech32_bijection :
    ∀ v, v < 32 → BECH32.decodeBytes (BECH32.encodeSymbols.getD v 0) = v := by
  decide

lemma decode_encode_ok_inversed (A : Alphabet) (hord : A.encodeOrder = .OrderInversed)
    (hbij : ∀ v, v < 32 → A.decodeBytes (A.encodeSymbols.getD v 0) = v)
    (b : List Nat) (h : ∀ x ∈ b, x < 256) :
    DecodeAlphabetToSlice (EncodeToSlice b A) A = .ok b := by
  have hr := roundInversed A.encodeSymbols A.decodeBytes hbij b.length b le_rfl h 0
  simp only [EncodeToSlice, DecodeAlphabetToSlice, hord]
  rw [hr]

lemma decode_encode_ok_normal (A : Alphabet) (hord : A.encodeOrder = .OrderNormal)
    (hbij : ∀ v, v < 32 → A.decodeBytes (A.encodeSymbols.getD v 0) = v)
    (b : List Nat) (h : ∀ x ∈ b, x < 256) :
    DecodeAlphabetToSlice (EncodeToSlice b A) A = .ok b := by
  have hr := roundNormal A.encodeSymbols A.decodeBytes hbij b.length b le_rfl h 0
  simp only [EncodeToSlice, DecodeAlphabetToSlice, hord]
  rw [hr]

/-- C1: round-trip — for every byte sequence and each of the three predefined
alphabets, decoding the encoding succeeds and returns exactly the input. -/
theorem claim1_round_trip (b : List Nat) (h : ∀ x ∈ b, x < 256) :
    DecodeAlphabet (EncodeAlphabet b ZBASE32) ZBASE32 = .ok b ∧
      DecodeAlphabet (EncodeAlphabet b RFC4648) RFC4648 = .ok b ∧
      DecodeAlphabet (EncodeAlphabet b BECH32) BECH32 = .ok b :=
  ⟨decode_encode_ok_inversed ZBASE32 rfl zbase32_bijection b h,
   decode_encode_ok_normal RFC4648 rfl rfc4648_bijection b h,
   decode_encode_ok_normal BECH32 rfl bech32_bijection b h⟩

/-- C1 witness: the round trip at the concrete input "hello". -/
theorem claim1_round_trip_witness :
    DecodeAlphabet (EncodeAlphabet ([104, 101, 108, 108, 111]) ZBASE32) ZBASE32 =
      .ok ([104, 101, 108, 108, 111]) ∧
    DecodeAlphabet (EncodeAlphabet ([104, 101, 108, 108, 111]) RFC4648) RFC4648 =
      .ok ([104, 101, 108, 108, 111]) ∧
    DecodeAlphabet (EncodeAlphabet ([104, 101, 108, 108, 111]) BECH32) BECH32 =
      .ok ([104, 101, 108, 108, 111]) :=
  claim1_round_trip ([104, 101, 108, 108, 111]) (by decide)

end RoundTrip

end Base32
